import Mathlib

/-!
Verification development for the dynamo operator classifier and branch
speculator (`torch/_dynamo/variables/torch.py`).

The development is a shallow embedding of the source: python objects that the
classifier dispatches on become Lean inductive types, the mutable trace
recorder state becomes an explicit state record threaded through the
functions, and exceptional control flow (`unimplemented`, `assert`,
concrete-evaluation failure) becomes an `Except` monad with a two-constructor
error type distinguishing the recoverable `Unsupported` outcome from fatal
defects.  External collaborators (the trace recorder, the output graph
builder, concrete evaluation of framework callables) enter through an
explicit environment record `Env` of function parameters; definitions whose
source lives outside the embedded file are marked `Modelled from the spec:`
in their doc comments.
-/

set_option maxHeartbeats 2000000 in
/-- Identity of a framework callable, as used by the classifier's `is` / `in`
dispatch tests.  Concrete named constructors stand for the specific python
objects the source compares against; `other mod nm` stands for any further
framework callable with the given `__module__` and `__name__`. -/
inductive Op where
  | nonzero
  | unique
  | uniqueConsecutive
  | whereOp
  | arange
  | repeatInterleave
  | isTensor
  | isTensorLike
  | isFloatingPoint
  | isComplex
  | numel
  | shapeAsTensor
  | shapeAsTensorOnnx
  | single
  | pair
  | triple
  | quadruple
  | ntuple
  | noGrad
  | enableGrad
  | setGradEnabled
  | isGradEnabled
  | ampAutocast
  | profilerProfile
  | profilerRecordFunction
  | autogradProfilerProfile
  | autogradProfilerRecordFunction
  | profilerEnabled
  | jitAnnotate
  | cudnnIsAcceptable
  | generatorGetState
  | generatorSetState
  | randomSetRngState
  | addcdiv
  | divOp
  | mulOp
  | addOp
  | mathSqrt
  | softmaxModule
  | crossEntropyLossModule
  | otherModuleCtor (nm : String)
  | torchAssert
  | getDeviceIndex
  | cudaIsAvailable
  | deviceCtor
  | distributedIsAvailable
  | finfoCtor
  | iinfoCtor
  | getDefaultDtype
  | reductionGetEnum
  | distributedIsInitialized
  | jitIsScripting
  | jitIsTracing
  | onnxIsInExport
  | nmsOp
  | tensorTypeCtor (nm : String)
  | tensorRAdd
  | tensorRMul
  | tensorROr
  | tensorRXor
  | tensorRAnd
  | remapRAdd
  | remapRMul
  | remapROr
  | remapRXor
  | remapRAnd
  | other (mod nm : String)
deriving Repr

/-- A flat injective key for `Op`, avoiding a quadratic equality match. -/
def Op.key : Op → Nat × String × String
  | .nonzero => (0, "", "")
  | .unique => (1, "", "")
  | .uniqueConsecutive => (2, "", "")
  | .whereOp => (3, "", "")
  | .arange => (4, "", "")
  | .repeatInterleave => (5, "", "")
  | .isTensor => (6, "", "")
  | .isTensorLike => (7, "", "")
  | .isFloatingPoint => (8, "", "")
  | .isComplex => (9, "", "")
  | .numel => (10, "", "")
  | .shapeAsTensor => (11, "", "")
  | .shapeAsTensorOnnx => (12, "", "")
  | .single => (13, "", "")
  | .pair => (14, "", "")
  | .triple => (15, "", "")
  | .quadruple => (16, "", "")
  | .ntuple => (17, "", "")
  | .noGrad => (18, "", "")
  | .enableGrad => (19, "", "")
  | .setGradEnabled => (20, "", "")
  | .isGradEnabled => (21, "", "")
  | .ampAutocast => (22, "", "")
  | .profilerProfile => (23, "", "")
  | .profilerRecordFunction => (24, "", "")
  | .autogradProfilerProfile => (25, "", "")
  | .autogradProfilerRecordFunction => (26, "", "")
  | .profilerEnabled => (27, "", "")
  | .jitAnnotate => (28, "", "")
  | .cudnnIsAcceptable => (29, "", "")
  | .generatorGetState => (30, "", "")
  | .generatorSetState => (31, "", "")
  | .randomSetRngState => (32, "", "")
  | .addcdiv => (33, "", "")
  | .divOp => (34, "", "")
  | .mulOp => (35, "", "")
  | .addOp => (36, "", "")
  | .mathSqrt => (37, "", "")
  | .softmaxModule => (38, "", "")
  | .crossEntropyLossModule => (39, "", "")
  | .otherModuleCtor nm => (40, nm, "")
  | .torchAssert => (41, "", "")
  | .getDeviceIndex => (42, "", "")
  | .cudaIsAvailable => (43, "", "")
  | .deviceCtor => (44, "", "")
  | .distributedIsAvailable => (45, "", "")
  | .finfoCtor => (46, "", "")
  | .iinfoCtor => (47, "", "")
  | .getDefaultDtype => (48, "", "")
  | .reductionGetEnum => (49, "", "")
  | .distributedIsInitialized => (50, "", "")
  | .jitIsScripting => (51, "", "")
  | .jitIsTracing => (52, "", "")
  | .onnxIsInExport => (53, "", "")
  | .nmsOp => (54, "", "")
  | .tensorTypeCtor nm => (55, nm, "")
  | .tensorRAdd => (56, "", "")
  | .tensorRMul => (57, "", "")
  | .tensorROr => (58, "", "")
  | .tensorRXor => (59, "", "")
  | .tensorRAnd => (60, "", "")
  | .remapRAdd => (61, "", "")
  | .remapRMul => (62, "", "")
  | .remapROr => (63, "", "")
  | .remapRXor => (64, "", "")
  | .remapRAnd => (65, "", "")
  | .other mod nm => (66, mod, nm)

/-- Left inverse of `Op.key` on reachable keys. -/
def Op.ofKey : Nat × String × String → Op
  | (0, _, _) => .nonzero
  | (1, _, _) => .unique
  | (2, _, _) => .uniqueConsecutive
  | (3, _, _) => .whereOp
  | (4, _, _) => .arange
  | (5, _, _) => .repeatInterleave
  | (6, _, _) => .isTensor
  | (7, _, _) => .isTensorLike
  | (8, _, _) => .isFloatingPoint
  | (9, _, _) => .isComplex
  | (10, _, _) => .numel
  | (11, _, _) => .shapeAsTensor
  | (12, _, _) => .shapeAsTensorOnnx
  | (13, _, _) => .single
  | (14, _, _) => .pair
  | (15, _, _) => .triple
  | (16, _, _) => .quadruple
  | (17, _, _) => .ntuple
  | (18, _, _) => .noGrad
  | (19, _, _) => .enableGrad
  | (20, _, _) => .setGradEnabled
  | (21, _, _) => .isGradEnabled
  | (22, _, _) => .ampAutocast
  | (23, _, _) => .profilerProfile
  | (24, _, _) => .profilerRecordFunction
  | (25, _, _) => .autogradProfilerProfile
  | (26, _, _) => .autogradProfilerRecordFunction
  | (27, _, _) => .profilerEnabled
  | (28, _, _) => .jitAnnotate
  | (29, _, _) => .cudnnIsAcceptable
  | (30, _, _) => .generatorGetState
  | (31, _, _) => .generatorSetState
  | (32, _, _) => .randomSetRngState
  | (33, _, _) => .addcdiv
  | (34, _, _) => .divOp
  | (35, _, _) => .mulOp
  | (36, _, _) => .addOp
  | (37, _, _) => .mathSqrt
  | (38, _, _) => .softmaxModule
  | (39, _, _) => .crossEntropyLossModule
  | (40, nm, _) => .otherModuleCtor nm
  | (41, _, _) => .torchAssert
  | (42, _, _) => .getDeviceIndex
  | (43, _, _) => .cudaIsAvailable
  | (44, _, _) => .deviceCtor
  | (45, _, _) => .distributedIsAvailable
  | (46, _, _) => .finfoCtor
  | (47, _, _) => .iinfoCtor
  | (48, _, _) => .getDefaultDtype
  | (49, _, _) => .reductionGetEnum
  | (50, _, _) => .distributedIsInitialized
  | (51, _, _) => .jitIsScripting
  | (52, _, _) => .jitIsTracing
  | (53, _, _) => .onnxIsInExport
  | (54, _, _) => .nmsOp
  | (55, nm, _) => .tensorTypeCtor nm
  | (56, _, _) => .tensorRAdd
  | (57, _, _) => .tensorRMul
  | (58, _, _) => .tensorROr
  | (59, _, _) => .tensorRXor
  | (60, _, _) => .tensorRAnd
  | (61, _, _) => .remapRAdd
  | (62, _, _) => .remapRMul
  | (63, _, _) => .remapROr
  | (64, _, _) => .remapRXor
  | (65, _, _) => .remapRAnd
  | (66, mod, nm) => .other mod nm
  | _ => .nonzero

/-- Left-inverse law giving injectivity of `Op.key` (kept as a definition so
the equality instance below can use it ahead of the theorem section). -/
def Op.ofKey_key (a : Op) : Op.ofKey (Op.key a) = a := by
  cases a <;> rfl

instance : DecidableEq Op := fun a b =>
  decidable_of_iff (Op.key a = Op.key b)
    ⟨fun h => by
        have h2 := congrArg Op.ofKey h
        rwa [Op.ofKey_key, Op.ofKey_key] at h2,
      fun h => by rw [h]⟩

/-- The python `__module__` attribute of each embedded callable. -/
def Op.module : Op → String
  | .nonzero | .unique | .uniqueConsecutive | .whereOp | .arange
  | .repeatInterleave | .isTensor | .isFloatingPoint | .isComplex | .numel
  | .addcdiv | .divOp | .mulOp | .addOp | .noGrad | .enableGrad
  | .setGradEnabled | .isGradEnabled | .deviceCtor | .finfoCtor | .iinfoCtor
  | .getDefaultDtype | .torchAssert => "torch"
  | .isTensorLike => "torch.overrides"
  | .shapeAsTensor => "torch"
  | .shapeAsTensorOnnx => "torch.onnx.operators"
  | .single | .pair | .triple | .quadruple | .ntuple => "torch.nn.modules.utils"
  | .ampAutocast => "torch.amp.autocast_mode"
  | .profilerProfile | .profilerRecordFunction => "torch.profiler"
  | .autogradProfilerProfile | .autogradProfilerRecordFunction
  | .profilerEnabled => "torch.autograd.profiler"
  | .jitAnnotate | .jitIsScripting | .jitIsTracing => "torch.jit"
  | .cudnnIsAcceptable => "torch.backends.cudnn"
  | .generatorGetState | .generatorSetState => "torch._C"
  | .randomSetRngState => "torch.random"
  | .mathSqrt => "math"
  | .softmaxModule | .crossEntropyLossModule => "torch.nn.modules"
  | .otherModuleCtor _ => "torch.nn.modules"
  | .getDeviceIndex => "torch._utils"
  | .cudaIsAvailable => "torch.cuda"
  | .distributedIsAvailable | .distributedIsInitialized => "torch.distributed"
  | .reductionGetEnum => "torch.nn.functional"
  | .onnxIsInExport => "torch.onnx"
  | .nmsOp => "torchvision.ops.boxes"
  | .tensorTypeCtor _ => "torch"
  | .tensorRAdd | .tensorRMul | .tensorROr | .tensorRXor | .tensorRAnd =>
      "torch._C"
  | .remapRAdd | .remapRMul | .remapROr | .remapRXor | .remapRAnd =>
      "torch._dynamo.variables.torch"
  | .other mod _ => mod

/-- The python `__name__` attribute of each embedded callable. -/
def Op.name : Op → String
  | .nonzero => "nonzero"
  | .unique => "unique"
  | .uniqueConsecutive => "unique_consecutive"
  | .whereOp => "where"
  | .arange => "arange"
  | .repeatInterleave => "repeat_interleave"
  | .isTensor => "is_tensor"
  | .isTensorLike => "is_tensor_like"
  | .isFloatingPoint => "is_floating_point"
  | .isComplex => "is_complex"
  | .numel => "numel"
  | .shapeAsTensor => "_shape_as_tensor"
  | .shapeAsTensorOnnx => "shape_as_tensor"
  | .single => "_single"
  | .pair => "_pair"
  | .triple => "_triple"
  | .quadruple => "_quadruple"
  | .ntuple => "_ntuple"
  | .noGrad => "no_grad"
  | .enableGrad => "enable_grad"
  | .setGradEnabled => "set_grad_enabled"
  | .isGradEnabled => "is_grad_enabled"
  | .ampAutocast => "autocast"
  | .profilerProfile => "profile"
  | .profilerRecordFunction => "record_function"
  | .autogradProfilerProfile => "profile"
  | .autogradProfilerRecordFunction => "record_function"
  | .profilerEnabled => "_profiler_enabled"
  | .jitAnnotate => "annotate"
  | .cudnnIsAcceptable => "is_acceptable"
  | .generatorGetState => "get_state"
  | .generatorSetState => "set_state"
  | .randomSetRngState => "set_rng_state"
  | .addcdiv => "addcdiv"
  | .divOp => "div"
  | .mulOp => "mul"
  | .addOp => "add"
  | .mathSqrt => "sqrt"
  | .softmaxModule => "Softmax"
  | .crossEntropyLossModule => "CrossEntropyLoss"
  | .otherModuleCtor nm => nm
  | .torchAssert => "_assert"
  | .getDeviceIndex => "_get_device_index"
  | .cudaIsAvailable => "is_available"
  | .deviceCtor => "device"
  | .distributedIsAvailable => "is_available"
  | .finfoCtor => "finfo"
  | .iinfoCtor => "iinfo"
  | .getDefaultDtype => "get_default_dtype"
  | .reductionGetEnum => "get_enum"
  | .distributedIsInitialized => "is_initialized"
  | .jitIsScripting => "is_scripting"
  | .jitIsTracing => "is_tracing"
  | .onnxIsInExport => "is_in_onnx_export"
  | .nmsOp => "nms"
  | .tensorTypeCtor nm => nm
  | .tensorRAdd => "__radd__"
  | .tensorRMul => "__rmul__"
  | .tensorROr => "__ror__"
  | .tensorRXor => "__rxor__"
  | .tensorRAnd => "__rand__"
  | .remapRAdd => "remap_as_fn___radd__"
  | .remapRMul => "remap_as_fn___rmul__"
  | .remapROr => "remap_as_fn___ror__"
  | .remapRXor => "remap_as_fn___rxor__"
  | .remapRAnd => "remap_as_fn___rand__"
  | .other _ nm => nm

/-- Embeds `tensor_dunder_fns_remap`: normalizes the known bound tensor
dunder methods to the module-level plain functions at `TorchVariable`
construction time. -/
def remapTensorDunder : Op → Op
  | .tensorRAdd => .remapRAdd
  | .tensorRMul => .remapRMul
  | .tensorROr => .remapROr
  | .tensorRXor => .remapRXor
  | .tensorRAnd => .remapRAnd
  | op => op

/-- Tensor element dtypes, with just the metadata the classifier consults. -/
inductive DtypeV where
  | float16
  | float32
  | float64
  | bfloat16
  | complex64
  | complex128
  | int32
  | int64
  | boolD
deriving DecidableEq, Repr

/-- The `dtype.is_floating_point` attribute. -/
def DtypeV.isFloating : DtypeV → Bool
  | .float16 | .float32 | .float64 | .bfloat16 => true
  | _ => false

/-- The `dtype.is_complex` attribute. -/
def DtypeV.isComplexD : DtypeV → Bool
  | .complex64 | .complex128 => true
  | _ => false

/-- Concrete python-level constant values, as carried by constant and
unspecialized-scalar variables.  Numbers are idealized: python ints are
`Int`, python floats are exact rationals. -/
inductive PyVal where
  | int (n : Int)
  | float (q : ℚ)
  | bool (b : Bool)
  | str (s : String)
  | none
  | tup (xs : List PyVal)
  | listV (xs : List PyVal)

mutual

def PyVal.decEq : (a b : PyVal) → Decidable (a = b)
  | .int m, .int n =>
      match inferInstanceAs (Decidable (m = n)) with
      | isTrue h => isTrue (by rw [h])
      | isFalse h => isFalse (fun he => by cases he; exact h rfl)
  | .float p, .float q =>
      match inferInstanceAs (Decidable (p = q)) with
      | isTrue h => isTrue (by rw [h])
      | isFalse h => isFalse (fun he => by cases he; exact h rfl)
  | .bool p, .bool q =>
      match inferInstanceAs (Decidable (p = q)) with
      | isTrue h => isTrue (by rw [h])
      | isFalse h => isFalse (fun he => by cases he; exact h rfl)
  | .str p, .str q =>
      match inferInstanceAs (Decidable (p = q)) with
      | isTrue h => isTrue (by rw [h])
      | isFalse h => isFalse (fun he => by cases he; exact h rfl)
  | .none, .none => isTrue rfl
  | .tup xs, .tup ys =>
      match PyVal.decEqList xs ys with
      | isTrue h => isTrue (by rw [h])
      | isFalse h => isFalse (fun he => by cases he; exact h rfl)
  | .listV xs, .listV ys =>
      match PyVal.decEqList xs ys with
      | isTrue h => isTrue (by rw [h])
      | isFalse h => isFalse (fun he => by cases he; exact h rfl)
  | .int .., .float .. => isFalse nofun
  | .int .., .bool .. => isFalse nofun
  | .int .., .str .. => isFalse nofun
  | .int .., .none => isFalse nofun
  | .int .., .tup .. => isFalse nofun
  | .int .., .listV .. => isFalse nofun
  | .float .., .int .. => isFalse nofun
  | .float .., .bool .. => isFalse nofun
  | .float .., .str .. => isFalse nofun
  | .float .., .none => isFalse nofun
  | .float .., .tup .. => isFalse nofun
  | .float .., .listV .. => isFalse nofun
  | .bool .., .int .. => isFalse nofun
  | .bool .., .float .. => isFalse nofun
  | .bool .., .str .. => isFalse nofun
  | .bool .., .none => isFalse nofun
  | .bool .., .tup .. => isFalse nofun
  | .bool .., .listV .. => isFalse nofun
  | .str .., .int .. => isFalse nofun
  | .str .., .float .. => isFalse nofun
  | .str .., .bool .. => isFalse nofun
  | .str .., .none => isFalse nofun
  | .str .., .tup .. => isFalse nofun
  | .str .., .listV .. => isFalse nofun
  | .none, .int .. => isFalse nofun
  | .none, .float .. => isFalse nofun
  | .none, .bool .. => isFalse nofun
  | .none, .str .. => isFalse nofun
  | .none, .tup .. => isFalse nofun
  | .none, .listV .. => isFalse nofun
  | .tup .., .int .. => isFalse nofun
  | .tup .., .float .. => isFalse nofun
  | .tup .., .bool .. => isFalse nofun
  | .tup .., .str .. => isFalse nofun
  | .tup .., .none => isFalse nofun
  | .tup .., .listV .. => isFalse nofun
  | .listV .., .int .. => isFalse nofun
  | .listV .., .float .. => isFalse nofun
  | .listV .., .bool .. => isFalse nofun
  | .listV .., .str .. => isFalse nofun
  | .listV .., .none => isFalse nofun
  | .listV .., .tup .. => isFalse nofun

def PyVal.decEqList : (a b : List PyVal) → Decidable (a = b)
  | [], [] => isTrue rfl
  | [], _ :: _ => isFalse nofun
  | _ :: _, [] => isFalse nofun
  | x :: xs, y :: ys =>
      match PyVal.decEq x y, PyVal.decEqList xs ys with
      | isTrue h1, isTrue h2 => isTrue (by rw [h1, h2])
      | isFalse h1, _ => isFalse (fun he => by cases he; exact h1 rfl)
      | _, isFalse h2 => isFalse (fun he => by cases he; exact h2 rfl)
end

instance : DecidableEq PyVal := PyVal.decEq

/-- Guard predicates are identified abstractly; a guard set is the
accumulator of runtime-validity predicates (duplicates coalesce). -/
abbrev GuardSet := Finset Nat

/-- Tags for the deferred closures (`LambdaVariable` payloads) the classifier
can return: the tuple-normalizer handler and the module-constructor rewrite
closures.  The latter two carry no payload here because no embedded claim
invokes them; invoking a `handleNtuple` closure is defined below. -/
inductive LamTag where
  | handleNtuple (count : Nat)
  | fakeSoftmax
  | fakeCrossEntropyLoss
deriving DecidableEq, Repr

/-- Traced values (the external `VariableTracker` variants the classifier
consumes).  Each carries its accumulated guard set `g`; proxy-backed
variants carry the identity of their graph proxy node. -/
inductive Var where
  | const (v : PyVal) (g : GuardSet)
  | tensor (dtype : Option DtypeV) (device : String) (size : Option (List Nat))
      (proxy : Nat) (g : GuardSet)
  | unspec (v : PyVal) (proxy : Nat) (g : GuardSet)
  | dynShape (proxy : Nat) (g : GuardSet)
  | listVr (items : List Var) (g : GuardSet)
  | tupleVr (items : List Var) (g : GuardSet)
  | userObj (hasTorchFunction : Bool) (g : GuardSet)
  | userFn (tag : Nat) (g : GuardSet)
  | lambdaV (tag : LamTag) (g : GuardSet)
  | gradMode (enabled : Bool) (g : GuardSet)
  | autocast (g : GuardSet)
  | nullCtx (g : GuardSet)
  | tfOverride (tensorVariable : Var) (fnTag : Nat) (subclassTag : Nat)
      (g : GuardSet)

mutual

def Var.decEq : (a b : Var) → Decidable (a = b)
  | .const v g, .const v' g' =>
      match inferInstanceAs (Decidable (v = v')),
            inferInstanceAs (Decidable (g = g')) with
      | isTrue h1, isTrue h2 => isTrue (by rw [h1, h2])
      | isFalse h1, _ => isFalse (fun he => by cases he; exact h1 rfl)
      | _, isFalse h2 => isFalse (fun he => by cases he; exact h2 rfl)
  | .tensor d dv s p g, .tensor d' dv' s' p' g' =>
      match inferInstanceAs (Decidable (d = d')),
            inferInstanceAs (Decidable (dv = dv')),
            inferInstanceAs (Decidable (s = s')),
            inferInstanceAs (Decidable (p = p')),
            inferInstanceAs (Decidable (g = g')) with
      | isTrue h1, isTrue h2, isTrue h3, isTrue h4, isTrue h5 =>
          isTrue (by rw [h1, h2, h3, h4, h5])
      | isFalse h1, _, _, _, _ => isFalse (fun he => by cases he; exact h1 rfl)
      | _, isFalse h2, _, _, _ => isFalse (fun he => by cases he; exact h2 rfl)
      | _, _, isFalse h3, _, _ => isFalse (fun he => by cases he; exact h3 rfl)
      | _, _, _, isFalse h4, _ => isFalse (fun he => by cases he; exact h4 rfl)
      | _, _, _, _, isFalse h5 => isFalse (fun he => by cases he; exact h5 rfl)
  | .unspec v p g, .unspec v' p' g' =>
      match inferInstanceAs (Decidable (v = v')),
            inferInstanceAs (Decidable (p = p')),
            inferInstanceAs (Decidable (g = g')) with
      | isTrue h1, isTrue h2, isTrue h3 => isTrue (by rw [h1, h2, h3])
      | isFalse h1, _, _ => isFalse (fun he => by cases he; exact h1 rfl)
      | _, isFalse h2, _ => isFalse (fun he => by cases he; exact h2 rfl)
      | _, _, isFalse h3 => isFalse (fun he => by cases he; exact h3 rfl)
  | .dynShape p g, .dynShape p' g' =>
      match inferInstanceAs (Decidable (p = p')),
            inferInstanceAs (Decidable (g = g')) with
      | isTrue h1, isTrue h2 => isTrue (by rw [h1, h2])
      | isFalse h1, _ => isFalse (fun he => by cases he; exact h1 rfl)
      | _, isFalse h2 => isFalse (fun he => by cases he; exact h2 rfl)
  | .listVr xs g, .listVr ys g' =>
      match Var.decEqList xs ys, inferInstanceAs (Decidable (g = g')) with
      | isTrue h1, isTrue h2 => isTrue (by rw [h1, h2])
      | isFalse h1, _ => isFalse (fun he => by cases he; exact h1 rfl)
      | _, isFalse h2 => isFalse (fun he => by cases he; exact h2 rfl)
  | .tupleVr xs g, .tupleVr ys g' =>
      match Var.decEqList xs ys, inferInstanceAs (Decidable (g = g')) with
      | isTrue h1, isTrue h2 => isTrue (by rw [h1, h2])
      | isFalse h1, _ => isFalse (fun he => by cases he; exact h1 rfl)
      | _, isFalse h2 => isFalse (fun he => by cases he; exact h2 rfl)
  | .userObj b g, .userObj b' g' =>
      match inferInstanceAs (Decidable (b = b')),
            inferInstanceAs (Decidable (g = g')) with
      | isTrue h1, isTrue h2 => isTrue (by rw [h1, h2])
      | isFalse h1, _ => isFalse (fun he => by cases he; exact h1 rfl)
      | _, isFalse h2 => isFalse (fun he => by cases he; exact h2 rfl)
  | .userFn t g, .userFn t' g' =>
      match inferInstanceAs (Decidable (t = t')),
            inferInstanceAs (Decidable (g = g')) with
      | isTrue h1, isTrue h2 => isTrue (by rw [h1, h2])
      | isFalse h1, _ => isFalse (fun he => by cases he; exact h1 rfl)
      | _, isFalse h2 => isFalse (fun he => by cases he; exact h2 rfl)
  | .lambdaV t g, .lambdaV t' g' =>
      match inferInstanceAs (Decidable (t = t')),
            inferInstanceAs (Decidable (g = g')) with
      | isTrue h1, isTrue h2 => isTrue (by rw [h1, h2])
      | isFalse h1, _ => isFalse (fun he => by cases he; exact h1 rfl)
      | _, isFalse h2 => isFalse (fun he => by cases he; exact h2 rfl)
  | .gradMode b g, .gradMode b' g' =>
      match inferInstanceAs (Decidable (b = b')),
            inferInstanceAs (Decidable (g = g')) with
      | isTrue h1, isTrue h2 => isTrue (by rw [h1, h2])
      | isFalse h1, _ => isFalse (fun he => by cases he; exact h1 rfl)
      | _, isFalse h2 => isFalse (fun he => by cases he; exact h2 rfl)
  | .autocast g, .autocast g' =>
      match inferInstanceAs (Decidable (g = g')) with
      | isTrue h1 => isTrue (by rw [h1])
      | isFalse h1 => isFalse (fun he => by cases he; exact h1 rfl)
  | .nullCtx g, .nullCtx g' =>
      match inferInstanceAs (Decidable (g = g')) with
      | isTrue h1 => isTrue (by rw [h1])
      | isFalse h1 => isFalse (fun he => by cases he; exact h1 rfl)
  | .tfOverride v f s g, .tfOverride v' f' s' g' =>
      match Var.decEq v v', inferInstanceAs (Decidable (f = f')),
            inferInstanceAs (Decidable (s = s')),
            inferInstanceAs (Decidable (g = g')) with
      | isTrue h1, isTrue h2, isTrue h3, isTrue h4 =>
          isTrue (by rw [h1, h2, h3, h4])
      | isFalse h1, _, _, _ => isFalse (fun he => by cases he; exact h1 rfl)
      | _, isFalse h2, _, _ => isFalse (fun he => by cases he; exact h2 rfl)
      | _, _, isFalse h3, _ => isFalse (fun he => by cases he; exact h3 rfl)
      | _, _, _, isFalse h4 => isFalse (fun he => by cases he; exact h4 rfl)
  | .const .., .tensor .. => isFalse nofun
  | .const .., .unspec .. => isFalse nofun
  | .const .., .dynShape .. => isFalse nofun
  | .const .., .listVr .. => isFalse nofun
  | .const .., .tupleVr .. => isFalse nofun
  | .const .., .userObj .. => isFalse nofun
  | .const .., .userFn .. => isFalse nofun
  | .const .., .lambdaV .. => isFalse nofun
  | .const .., .gradMode .. => isFalse nofun
  | .const .., .autocast .. => isFalse nofun
  | .const .., .nullCtx .. => isFalse nofun
  | .const .., .tfOverride .. => isFalse nofun
  | .tensor .., .const .. => isFalse nofun
  | .tensor .., .unspec .. => isFalse nofun
  | .tensor .., .dynShape .. => isFalse nofun
  | .tensor .., .listVr .. => isFalse nofun
  | .tensor .., .tupleVr .. => isFalse nofun
  | .tensor .., .userObj .. => isFalse nofun
  | .tensor .., .userFn .. => isFalse nofun
  | .tensor .., .lambdaV .. => isFalse nofun
  | .tensor .., .gradMode .. => isFalse nofun
  | .tensor .., .autocast .. => isFalse nofun
  | .tensor .., .nullCtx .. => isFalse nofun
  | .tensor .., .tfOverride .. => isFalse nofun
  | .unspec .., .const .. => isFalse nofun
  | .unspec .., .tensor .. => isFalse nofun
  | .unspec .., .dynShape .. => isFalse nofun
  | .unspec .., .listVr .. => isFalse nofun
  | .unspec .., .tupleVr .. => isFalse nofun
  | .unspec .., .userObj .. => isFalse nofun
  | .unspec .., .userFn .. => isFalse nofun
  | .unspec .., .lambdaV .. => isFalse nofun
  | .unspec .., .gradMode .. => isFalse nofun
  | .unspec .., .autocast .. => isFalse nofun
  | .unspec .., .nullCtx .. => isFalse nofun
  | .unspec .., .tfOverride .. => isFalse nofun
  | .dynShape .., .const .. => isFalse nofun
  | .dynShape .., .tensor .. => isFalse nofun
  | .dynShape .., .unspec .. => isFalse nofun
  | .dynShape .., .listVr .. => isFalse nofun
  | .dynShape .., .tupleVr .. => isFalse nofun
  | .dynShape .., .userObj .. => isFalse nofun
  | .dynShape .., .userFn .. => isFalse nofun
  | .dynShape .., .lambdaV .. => isFalse nofun
  | .dynShape .., .gradMode .. => isFalse nofun
  | .dynShape .., .autocast .. => isFalse nofun
  | .dynShape .., .nullCtx .. => isFalse nofun
  | .dynShape .., .tfOverride .. => isFalse nofun
  | .listVr .., .const .. => isFalse nofun
  | .listVr .., .tensor .. => isFalse nofun
  | .listVr .., .unspec .. => isFalse nofun
  | .listVr .., .dynShape .. => isFalse nofun
  | .listVr .., .tupleVr .. => isFalse nofun
  | .listVr .., .userObj .. => isFalse nofun
  | .listVr .., .userFn .. => isFalse nofun
  | .listVr .., .lambdaV .. => isFalse nofun
  | .listVr .., .gradMode .. => isFalse nofun
  | .listVr .., .autocast .. => isFalse nofun
  | .listVr .., .nullCtx .. => isFalse nofun
  | .listVr .., .tfOverride .. => isFalse nofun
  | .tupleVr .., .const .. => isFalse nofun
  | .tupleVr .., .tensor .. => isFalse nofun
  | .tupleVr .., .unspec .. => isFalse nofun
  | .tupleVr .., .dynShape .. => isFalse nofun
  | .tupleVr .., .listVr .. => isFalse nofun
  | .tupleVr .., .userObj .. => isFalse nofun
  | .tupleVr .., .userFn .. => isFalse nofun
  | .tupleVr .., .lambdaV .. => isFalse nofun
  | .tupleVr .., .gradMode .. => isFalse nofun
  | .tupleVr .., .autocast .. => isFalse nofun
  | .tupleVr .., .nullCtx .. => isFalse nofun
  | .tupleVr .., .tfOverride .. => isFalse nofun
  | .userObj .., .const .. => isFalse nofun
  | .userObj .., .tensor .. => isFalse nofun
  | .userObj .., .unspec .. => isFalse nofun
  | .userObj .., .dynShape .. => isFalse nofun
  | .userObj .., .listVr .. => isFalse nofun
  | .userObj .., .tupleVr .. => isFalse nofun
  | .userObj .., .userFn .. => isFalse nofun
  | .userObj .., .lambdaV .. => isFalse nofun
  | .userObj .., .gradMode .. => isFalse nofun
  | .userObj .., .autocast .. => isFalse nofun
  | .userObj .., .nullCtx .. => isFalse nofun
  | .userObj .., .tfOverride .. => isFalse nofun
  | .userFn .., .const .. => isFalse nofun
  | .userFn .., .tensor .. => isFalse nofun
  | .userFn .., .unspec .. => isFalse nofun
  | .userFn .., .dynShape .. => isFalse nofun
  | .userFn .., .listVr .. => isFalse nofun
  | .userFn .., .tupleVr .. => isFalse nofun
  | .userFn .., .userObj .. => isFalse nofun
  | .userFn .., .lambdaV .. => isFalse nofun
  | .userFn .., .gradMode .. => isFalse nofun
  | .userFn .., .autocast .. => isFalse nofun
  | .userFn .., .nullCtx .. => isFalse nofun
  | .userFn .., .tfOverride .. => isFalse nofun
  | .lambdaV .., .const .. => isFalse nofun
  | .lambdaV .., .tensor .. => isFalse nofun
  | .lambdaV .., .unspec .. => isFalse nofun
  | .lambdaV .., .dynShape .. => isFalse nofun
  | .lambdaV .., .listVr .. => isFalse nofun
  | .lambdaV .., .tupleVr .. => isFalse nofun
  | .lambdaV .., .userObj .. => isFalse nofun
  | .lambdaV .., .userFn .. => isFalse nofun
  | .lambdaV .., .gradMode .. => isFalse nofun
  | .lambdaV .., .autocast .. => isFalse nofun
  | .lambdaV .., .nullCtx .. => isFalse nofun
  | .lambdaV .., .tfOverride .. => isFalse nofun
  | .gradMode .., .const .. => isFalse nofun
  | .gradMode .., .tensor .. => isFalse nofun
  | .gradMode .., .unspec .. => isFalse nofun
  | .gradMode .., .dynShape .. => isFalse nofun
  | .gradMode .., .listVr .. => isFalse nofun
  | .gradMode .., .tupleVr .. => isFalse nofun
  | .gradMode .., .userObj .. => isFalse nofun
  | .gradMode .., .userFn .. => isFalse nofun
  | .gradMode .., .lambdaV .. => isFalse nofun
  | .gradMode .., .autocast .. => isFalse nofun
  | .gradMode .., .nullCtx .. => isFalse nofun
  | .gradMode .., .tfOverride .. => isFalse nofun
  | .autocast .., .const .. => isFalse nofun
  | .autocast .., .tensor .. => isFalse nofun
  | .autocast .., .unspec .. => isFalse nofun
  | .autocast .., .dynShape .. => isFalse nofun
  | .autocast .., .listVr .. => isFalse nofun
  | .autocast .., .tupleVr .. => isFalse nofun
  | .autocast .., .userObj .. => isFalse nofun
  | .autocast .., .userFn .. => isFalse nofun
  | .autocast .., .lambdaV .. => isFalse nofun
  | .autocast .., .gradMode .. => isFalse nofun
  | .autocast .., .nullCtx .. => isFalse nofun
  | .autocast .., .tfOverride .. => isFalse nofun
  | .nullCtx .., .const .. => isFalse nofun
  | .nullCtx .., .tensor .. => isFalse nofun
  | .nullCtx .., .unspec .. => isFalse nofun
  | .nullCtx .., .dynShape .. => isFalse nofun
  | .nullCtx .., .listVr .. => isFalse nofun
  | .nullCtx .., .tupleVr .. => isFalse nofun
  | .nullCtx .., .userObj .. => isFalse nofun
  | .nullCtx .., .userFn .. => isFalse nofun
  | .nullCtx .., .lambdaV .. => isFalse nofun
  | .nullCtx .., .gradMode .. => isFalse nofun
  | .nullCtx .., .autocast .. => isFalse nofun
  | .nullCtx .., .tfOverride .. => isFalse nofun
  | .tfOverride .., .const .. => isFalse nofun
  | .tfOverride .., .tensor .. => isFalse nofun
  | .tfOverride .., .unspec .. => isFalse nofun
  | .tfOverride .., .dynShape .. => isFalse nofun
  | .tfOverride .., .listVr .. => isFalse nofun
  | .tfOverride .., .tupleVr .. => isFalse nofun
  | .tfOverride .., .userObj .. => isFalse nofun
  | .tfOverride .., .userFn .. => isFalse nofun
  | .tfOverride .., .lambdaV .. => isFalse nofun
  | .tfOverride .., .gradMode .. => isFalse nofun
  | .tfOverride .., .autocast .. => isFalse nofun
  | .tfOverride .., .nullCtx .. => isFalse nofun

def Var.decEqList : (a b : List Var) → Decidable (a = b)
  | [], [] => isTrue rfl
  | [], _ :: _ => isFalse nofun
  | _ :: _, [] => isFalse nofun
  | x :: xs, y :: ys =>
      match Var.decEq x y, Var.decEqList xs ys with
      | isTrue h1, isTrue h2 => isTrue (by rw [h1, h2])
      | isFalse h1, _ => isFalse (fun he => by cases he; exact h1 rfl)
      | _, isFalse h2 => isFalse (fun he => by cases he; exact h2 rfl)
end

instance : DecidableEq Var := Var.decEq

/-- Exceptional outcomes of classification: `unsupported` embeds the
recoverable `unimplemented` / `Unsupported` signal (graph break), while
`fatal` embeds every fatal defect signal (assertion failures, python type
and index errors, and exceptions escaping concrete evaluation), which the
source never catches. -/
inductive Err where
  | unsupported (reason : String)
  | fatal (msg : String)
deriving DecidableEq, Repr

/-- The accumulated guard set of a traced value (`VariableTracker.guards`). -/
def Var.guards : Var → GuardSet
  | .const _ g => g
  | .tensor _ _ _ _ g => g
  | .unspec _ _ g => g
  | .dynShape _ g => g
  | .listVr _ g => g
  | .tupleVr _ g => g
  | .userObj _ g => g
  | .userFn _ g => g
  | .lambdaV _ g => g
  | .gradMode _ g => g
  | .autocast g => g
  | .nullCtx g => g
  | .tfOverride _ _ _ g => g

/-- Short kind name of a variable, used in diagnostic messages where the
source interpolates `type(...)`. -/
def Var.kindName : Var → String
  | .const .. => "ConstantVariable"
  | .tensor .. => "TensorVariable"
  | .unspec .. => "UnspecializedPythonVariable"
  | .dynShape .. => "DynamicShapeVariable"
  | .listVr .. => "ListVariable"
  | .tupleVr .. => "TupleVariable"
  | .userObj .. => "UserDefinedObjectVariable"
  | .userFn .. => "UserFunctionVariable"
  | .lambdaV .. => "LambdaVariable"
  | .gradMode .. => "GradModeVariable"
  | .autocast .. => "AutocastModeVariable"
  | .nullCtx .. => "NullContextVariable"
  | .tfOverride .. => "TensorWithTFOverrideVariable"

/-- Embeds `VariableTracker.propagate(self, args, kwargs.values())`: the union
of the guard sets of all argument values (the classifier is constructed with
an empty guard set of its own, which is how it is modelled here). -/
def optionsGuards (args : List Var) (kwargs : List (String × Var)) : GuardSet :=
  args.foldl (fun s a => s ∪ a.guards) ∅ ∪
    kwargs.foldl (fun s p => s ∪ p.2.guards) ∅

mutual

/-- The `is_python_constant` test: constant variables and list or tuple
variables all of whose items are python constants. -/
def Var.isPythonConstant : Var → Bool
  | .const .. => true
  | .listVr xs _ => Var.allPythonConstant xs
  | .tupleVr xs _ => Var.allPythonConstant xs
  | _ => false

def Var.allPythonConstant : List Var → Bool
  | [] => true
  | x :: xs => Var.isPythonConstant x && Var.allPythonConstant xs
end

mutual

/-- The `as_python_constant` accessor; raising `NotImplementedError` on
non-constant variables becomes a fatal error. -/
def Var.asPythonConstant : Var → Except Err PyVal
  | .const v _ => .ok v
  | .listVr xs _ =>
      match Var.asPythonConstantList xs with
      | .ok vs => .ok (.listV vs)
      | .error e => .error e
  | .tupleVr xs _ =>
      match Var.asPythonConstantList xs with
      | .ok vs => .ok (.tup vs)
      | .error e => .error e
  | _ => .error (.fatal "as_python_constant: NotImplementedError")

def Var.asPythonConstantList : List Var → Except Err (List PyVal)
  | [] => .ok []
  | x :: xs =>
      match Var.asPythonConstant x, Var.asPythonConstantList xs with
      | .ok v, .ok vs => .ok (v :: vs)
      | .error e, _ => .error e
      | _, .error e => .error e
end

/-- The `has_unpack_var_sequence` test: list and tuple variables, and
constant variables holding a tuple or list literal.  Modelled from the spec:
the base variable classes live outside the embedded file; the spec calls
this "supports sequence unpacking". -/
def Var.hasUnpackVarSequence : Var → Bool
  | .listVr .. => true
  | .tupleVr .. => true
  | .const (.tup _) _ => true
  | .const (.listV _) _ => true
  | _ => false

/-- The `unpack_var_sequence` accessor.  Modelled from the spec: unpacking a
constant sequence yields one constant variable per element (each inheriting
the guard set of the unpacked value). -/
def Var.unpackVarSequence : Var → List Var
  | .listVr xs _ => xs
  | .tupleVr xs _ => xs
  | .const (.tup vs) g => vs.map (fun v => .const v g)
  | .const (.listV vs) g => vs.map (fun v => .const v g)
  | _ => []

/-- An `UnspecializedPythonVariable` scalar. -/
def Var.isUnspecScalar : Var → Bool
  | .unspec .. => true
  | _ => false

/-- Embeds `check_constant_args`: every positional and keyword argument is a
python constant. -/
def checkConstantArgs (args : List Var) (kwargs : List (String × Var)) : Bool :=
  args.all Var.isPythonConstant && kwargs.all (fun p => p.2.isPythonConstant)

/-- Modelled from the spec: `check_unspec_python_args` (an external util) —
all arguments are constant or "unspecialized scalar".  Inside the fold rule
this is disjoined with `check_constant_args`, for which this formulation is
equivalent to the source util. -/
def checkUnspecPythonArgs (args : List Var) (kwargs : List (String × Var)) :
    Bool :=
  args.all (fun a => a.isPythonConstant || a.isUnspecScalar) &&
    kwargs.all (fun p => p.2.isPythonConstant || p.2.isUnspecScalar)

/-- Modelled from the spec: `specialize_args_kwargs` (an external util) —
replace each unspecialized scalar by a constant variable carrying its
concrete value, so that the fold rule can read every argument concretely. -/
def specializeVar : Var → Var
  | .unspec v _ g => .const v g
  | v => v

/-- Embeds `constant_fold_functions` (including the distributed entry that
the source appends when the distributed backend is available). -/
def constantFoldFunctions : List Op :=
  [.torchAssert, .getDeviceIndex, .cudaIsAvailable, .deviceCtor,
   .distributedIsAvailable, .finfoCtor, .getDefaultDtype, .iinfoCtor,
   .isFloatingPoint, .reductionGetEnum, .distributedIsInitialized]

/-- Embeds `TorchVariable.can_constant_fold_through`: membership in the
explicit allow-list, or a declaring module of `math`. -/
def Op.canConstantFoldThrough (op : Op) : Bool :=
  if op ∈ constantFoldFunctions then true
  else op.module == "math"

/-- Modelled from the spec: the fixed constant table `config.constant_functions`
(rule 1; the configuration module is outside the embedded file).  The table
maps tracing-introspection predicates to unconditional constants and is
disjoint from the fold-eligible operators. -/
def configConstantFunctions : Op → Option PyVal
  | .jitIsScripting => some (.bool false)
  | .jitIsTracing => some (.bool false)
  | .onnxIsInExport => some (.bool false)
  | _ => none

/-- The `istype(self.value, type) and issubclass(self.value, torch.nn.Module)`
test, specialized to the embedded module-constructor identities. -/
def Op.isNnModuleType : Op → Bool
  | .softmaxModule | .crossEntropyLossModule | .otherModuleCtor _ => true
  | _ => false

/-- Embeds `REWRITE_OPS_TO_TENSOR_SIZE_METHOD`. -/
def rewriteOpsToTensorSizeMethod : List Op := [.shapeAsTensorOnnx, .shapeAsTensor]

/-- The `self.value in tensortype_to_dtype` membership test (fixed-dtype
tensor constructors such as `torch.LongTensor`). -/
def Op.isTensorTypeCtor : Op → Bool
  | .tensorTypeCtor _ => true
  | _ => false

/-- Proxy-level arguments of emitted graph nodes: a reference to an existing
proxy node, an inline python constant, or a tuple/list of such. -/
inductive PArg where
  | proxy (n : Nat)
  | constV (v : PyVal)
  | tup (xs : List PArg)
  | listA (xs : List PArg)

mutual

def PArg.decEq : (a b : PArg) → Decidable (a = b)
  | .proxy m, .proxy n =>
      match inferInstanceAs (Decidable (m = n)) with
      | isTrue h => isTrue (by rw [h])
      | isFalse h => isFalse (fun he => by cases he; exact h rfl)
  | .constV v, .constV w =>
      match inferInstanceAs (Decidable (v = w)) with
      | isTrue h => isTrue (by rw [h])
      | isFalse h => isFalse (fun he => by cases he; exact h rfl)
  | .tup xs, .tup ys =>
      match PArg.decEqList xs ys with
      | isTrue h => isTrue (by rw [h])
      | isFalse h => isFalse (fun he => by cases he; exact h rfl)
  | .listA xs, .listA ys =>
      match PArg.decEqList xs ys with
      | isTrue h => isTrue (by rw [h])
      | isFalse h => isFalse (fun he => by cases he; exact h rfl)
  | .proxy .., .constV .. => isFalse nofun
  | .proxy .., .tup .. => isFalse nofun
  | .proxy .., .listA .. => isFalse nofun
  | .constV .., .proxy .. => isFalse nofun
  | .constV .., .tup .. => isFalse nofun
  | .constV .., .listA .. => isFalse nofun
  | .tup .., .proxy .. => isFalse nofun
  | .tup .., .constV .. => isFalse nofun
  | .tup .., .listA .. => isFalse nofun
  | .listA .., .proxy .. => isFalse nofun
  | .listA .., .constV .. => isFalse nofun
  | .listA .., .tup .. => isFalse nofun

def PArg.decEqList : (a b : List PArg) → Decidable (a = b)
  | [], [] => isTrue rfl
  | [], _ :: _ => isFalse nofun
  | _ :: _, [] => isFalse nofun
  | x :: xs, y :: ys =>
      match PArg.decEq x y, PArg.decEqList xs ys with
      | isTrue h1, isTrue h2 => isTrue (by rw [h1, h2])
      | isFalse h1, _ => isFalse (fun he => by cases he; exact h1 rfl)
      | _, isFalse h2 => isFalse (fun he => by cases he; exact h2 rfl)
end

instance : DecidableEq PArg := PArg.decEq

mutual

/-- The `as_proxy()` conversion used by `proxy_args_kwargs`; `Option.none`
stands for `NotImplementedError` (variables with no proxy form). -/
def Var.asProxyQ : Var → Option PArg
  | .const v _ => some (.constV v)
  | .tensor _ _ _ p _ => some (.proxy p)
  | .unspec _ p _ => some (.proxy p)
  | .dynShape p _ => some (.proxy p)
  | .listVr xs _ =>
      match Var.asProxyList xs with
      | some ps => some (.listA ps)
      | none => none
  | .tupleVr xs _ =>
      match Var.asProxyList xs with
      | some ps => some (.tup ps)
      | none => none
  | _ => none

def Var.asProxyList : List Var → Option (List PArg)
  | [] => some []
  | x :: xs =>
      match Var.asProxyQ x, Var.asProxyList xs with
      | some p, some ps => some (p :: ps)
      | _, _ => none
end

/-- Embeds the external util `proxy_args_kwargs`: convert every argument to
a proxy argument, turning `NotImplementedError` into the Unsupported
outcome with a `call_function args` reason, as the util does. -/
def proxyArgsKwargs (args : List Var) (kwargs : List (String × Var)) :
    Except Err (List PArg × List (String × PArg)) :=
  match Var.asProxyList args,
        kwargs.mapM (fun p => (p.2.asProxyQ).map (fun q => (p.1, q))) with
  | some pargs, some pkwargs => .ok (pargs, pkwargs)
  | _, _ => .error (.unsupported "call_function args")

/-- Keys of the sub-module table.  Probed names of the form
`cond_<label>_<i>` are encoded as the pair `(label, i)`; this encoding is
injective exactly as the decimal-suffixed strings of the source are. -/
abbrev ModKey := String × Nat

/-- Targets of emitted call nodes: a framework callable, the symbolic
square-root replacement, the generator-state thunk, or a python higher-order
operator (the conditional). -/
inductive Target where
  | torchFn (op : Op)
  | symSqrt
  | getStateFromGenerator
  | pyOperator (nm : String)
deriving DecidableEq, Repr

/-- Nodes of a graph fragment. -/
inductive GNode where
  | placeholder (proxy : Nat) (nm : String)
  | callFunction (proxy : Nat) (target : Target) (args : List PArg)
      (kwargs : List (String × PArg))
  | callMethod (proxy : Nat) (methodName : String) (args : List PArg)
      (kwargs : List (String × PArg))
  | getAttr (proxy : Nat) (key : ModKey)
  | outputNode (args : List PArg)
deriving DecidableEq

/-- A graph fragment: its node list plus the counter from which fresh proxy
identities are drawn. -/
structure Graph where
  nodes : List GNode
  nextProxy : Nat
deriving DecidableEq

/-- Side-effect records for tracked variables; only the class of the record
matters to the projection, so records are abstracted to a new-cell tag
versus an opaque tag. -/
inductive SEVar where
  | newCell
  | otherVariable (tag : Nat)
deriving DecidableEq, Repr

/-- The `NewCellVariable` class test. -/
def SEVar.isNewCell : SEVar → Bool
  | .newCell => true
  | _ => false

/-- Keys of the attribute-mutation store: mutations on newly constructed
objects (`AttributeMutationNew`) versus pre-existing ones. -/
inductive MutationKey where
  | attributeMutationNew (obj : Nat)
  | attributeMutationExisting (obj : Nat)
deriving DecidableEq, Repr

/-- The `AttributeMutationNew` class test. -/
def MutationKey.isNew : MutationKey → Bool
  | .attributeMutationNew _ => true
  | _ => false

/-- The side-effect log, with the three constructor fields the source
rebuilds when projecting: tracked variables by object id, attribute
mutations by mutation key, and the keepalive list. -/
structure SideEffects where
  idToVariable : List (Nat × SEVar)
  storeAttrMutations : List (MutationKey × List (String × Nat))
  keepalive : List Nat
deriving DecidableEq

/-- The sub-module table; registered values are abstracted to opaque ids. -/
abbrev NnTable := List (ModKey × Nat)

/-- The checkpointed portion of the output-graph state, as captured by
`copy_graphstate` and rebuilt by `_replace` in the comparable projection:
graph argument bookkeeping, the guard set (`guard_state`), the sub-module
table reference, the side-effect log, the monotonic timestamp, and the
input-name bookkeeping table.  The graph fragment itself is not part of the
checkpoint (the source snapshots it separately as `graph_checkpoint`). -/
structure OutputCheckpoint where
  graphargs : List Nat
  guardState : GuardSet
  nnModules : Option NnTable
  sideEffects : SideEffects
  timestamp : Nat
  nameToInput : List (String × Nat)
deriving DecidableEq

/-- A full interpreter-state checkpoint (`copy_graphstate` result): the
output checkpoint plus the interpreter-frame components that are captured
and restored alongside it — the symbolic-locals table and an abstract
remainder `frame` standing for the rest of the frame snapshot. -/
structure TxGraphState where
  output : OutputCheckpoint
  symbolicLocals : List (String × Var)
  frame : Nat
deriving DecidableEq

/-- The live, mutable output-graph state owned by the active trace. -/
structure OutputState where
  graph : Graph
  graphargs : List Nat
  guards : GuardSet
  nnModules : Option NnTable
  sideEffects : SideEffects
  timestamp : Nat
  nameToInput : List (String × Nat)
deriving DecidableEq

/-- The live trace-recorder state threaded through classification: the
output-graph state, the symbolic-locals table, and the abstract remainder
of the interpreter frame. -/
structure TxState where
  output : OutputState
  symbolicLocals : List (String × Var)
  frame : Nat
deriving DecidableEq

instance {ε α : Type} [DecidableEq ε] [DecidableEq α] :
    DecidableEq (Except ε α) := fun x y =>
  match x, y with
  | .ok a, .ok b =>
      match inferInstanceAs (Decidable (a = b)) with
      | isTrue h => isTrue (by rw [h])
      | isFalse h => isFalse (fun he => by cases he; exact h rfl)
  | .error e, .error f =>
      match inferInstanceAs (Decidable (e = f)) with
      | isTrue h => isTrue (by rw [h])
      | isFalse h => isFalse (fun he => by cases he; exact h rfl)
  | .ok _, .error _ => isFalse nofun
  | .error _, .ok _ => isFalse nofun

/-- Embeds `tx.copy_graphstate()`. -/
def TxState.copyGraphstate (tx : TxState) : TxGraphState :=
  { output :=
      { graphargs := tx.output.graphargs
        guardState := tx.output.guards
        nnModules := tx.output.nnModules
        sideEffects := tx.output.sideEffects
        timestamp := tx.output.timestamp
        nameToInput := tx.output.nameToInput }
    symbolicLocals := tx.symbolicLocals
    frame := tx.frame }

/-- Embeds `tx.restore_graphstate(checkpoint)`: every checkpointed component
is written back; the graph fragment reference is untouched (the source
restores it separately from `graph_checkpoint`). -/
def TxState.restoreGraphstate (tx : TxState) (cp : TxGraphState) : TxState :=
  { output :=
      { graph := tx.output.graph
        graphargs := cp.output.graphargs
        guards := cp.output.guardState
        nnModules := cp.output.nnModules
        sideEffects := cp.output.sideEffects
        timestamp := cp.output.timestamp
        nameToInput := cp.output.nameToInput }
    symbolicLocals := cp.symbolicLocals
    frame := cp.frame }

/-- Emit a `call_function` node (`tx.output.create_proxy("call_function", ...)`),
returning the fresh proxy.  Node creation advances the monotonic timestamp. -/
def OutputState.createProxyFn (o : OutputState) (t : Target) (args : List PArg)
    (kwargs : List (String × PArg)) : OutputState × Nat :=
  let p := o.graph.nextProxy
  ({ o with
      graph := ⟨o.graph.nodes ++ [.callFunction p t args kwargs], p + 1⟩
      timestamp := o.timestamp + 1 }, p)

/-- Emit a `call_method` node (`tx.output.create_proxy("call_method", ...)`). -/
def OutputState.createProxyMethod (o : OutputState) (nm : String)
    (args : List PArg) (kwargs : List (String × PArg)) : OutputState × Nat :=
  let p := o.graph.nextProxy
  ({ o with
      graph := ⟨o.graph.nodes ++ [.callMethod p nm args kwargs], p + 1⟩
      timestamp := o.timestamp + 1 }, p)

/-- Emit a `get_attr` node (`tx.output.create_proxy("get_attr", name, (), {})`). -/
def OutputState.createGetAttr (o : OutputState) (key : ModKey) :
    OutputState × Nat :=
  let p := o.graph.nextProxy
  ({ o with
      graph := ⟨o.graph.nodes ++ [.getAttr p key], p + 1⟩
      timestamp := o.timestamp + 1 }, p)

/-- Embeds `tx.output.create_graph_input(name)`: a placeholder node plus an
entry in the input-name bookkeeping table. -/
def OutputState.createGraphInput (o : OutputState) (nm : String) : OutputState :=
  let p := o.graph.nextProxy
  { o with
      graph := ⟨o.graph.nodes ++ [.placeholder p nm], p + 1⟩
      nameToInput := o.nameToInput ++ [(nm, p)]
      timestamp := o.timestamp + 1 }

/-- Embeds `tx.output.create_node("output", "output", ..., {})`. -/
def OutputState.createNodeOutput (o : OutputState) (args : List PArg) :
    OutputState :=
  { o with
      graph := ⟨o.graph.nodes ++ [.outputNode args], o.graph.nextProxy⟩
      timestamp := o.timestamp + 1 }

/-- The environment of external collaborators consumed by the classifier and
the speculator, per the interface boundary of the spec: configuration flags,
concrete evaluation of framework callables, the fake-execution result arity
used by the proxy-wrapping builder, user-function inlining for branch
bodies, tensor-subclass override inlining, side-effect pruning, the tensor
`size` method, and the numpy scalar coercion. -/
structure Env where
  dynamicShapes : Bool
  gradEnabled : Bool
  hasNumpy : Bool
  evalConcrete : Op → List PyVal → List (String × PyVal) → Except String PyVal
  cudnnAcceptable : Option DtypeV → String → Bool
  fakeTupleArity : Op → Option Nat
  runUserFn : Nat → TxState → List Var → Except Err (Var × TxState)
  inlineTFOverride : Op → Nat → Nat → List Var → List (String × Var) →
    TxState → Except Err (Var × TxState)
  nowrapFn : Op → Bool
  pruneDeadObjectNew : SideEffects → SideEffects
  tensorSizeMethod : Var → TxState → Except Err (Var × TxState)
  coerceNumpy : PyVal → PyVal

/-- Modelled from the spec: `wrap_fx_proxy` (the external builder) — wrap a
freshly created proxy as a traced value using the fake-execution example
value: a single tensor variable, or, for operators whose fake execution
returns a tuple of `n` tensors, a tuple variable of `n` fresh tensor
variables (consuming `n` further proxy identities for the item accessors). -/
def wrapFxProxy (arity : Option Nat) (p : Nat) (g : GuardSet)
    (o : OutputState) : Var × OutputState :=
  match arity with
  | none => (.tensor none "fake" none p g, o)
  | some n =>
      let base := o.graph.nextProxy
      let items := (List.range n).map fun i =>
        Var.tensor none "fake" none (base + i) g
      (.tupleVr items g,
        { o with graph := ⟨o.graph.nodes, base + n⟩ })

/-- Modelled from the spec: `tx.find_symbolic_locals_name(value)` (external
reverse lookup on the symbolic-locals table); the python object-identity
comparison is modelled as structural equality of the traced value. -/
def findSymbolicLocalsName (tx : TxState) (v : Var) : Option String :=
  (tx.symbolicLocals.find? (fun q => q.2 == v)).map (fun q => q.1)

/-- Assignment `tx.symbolic_locals[name] = v` (replacing an existing binding
or appending a new one, as a python dict does). -/
def TxState.setSymbolicLocal (tx : TxState) (nm : String) (v : Var) : TxState :=
  if tx.symbolicLocals.any (fun p => p.1 == nm) then
    { tx with
        symbolicLocals :=
          tx.symbolicLocals.map fun p => if p.1 == nm then (nm, v) else p }
  else { tx with symbolicLocals := tx.symbolicLocals ++ [(nm, v)] }

/-- Modelled from the spec: `torch.nn.modules.utils._ntuple(n)` applied to a
concrete python value (the torch utility lives outside the embedded file) —
an iterable value becomes the tuple of its elements, any other value is
broadcast into an `n`-tuple. -/
def pyNtuple (n : Nat) : PyVal → PyVal
  | .tup xs => .tup xs
  | .listV xs => .tup xs
  | v => .tup (List.replicate n v)

/-- Embeds the `handle_ntuple` closure of `TorchVariable._call_ntuple`: a
value supporting sequence unpacking becomes a tuple variable of its
elements; otherwise a python-constant value is constant-propagated through
the concrete tuple normalizer; any other value is unsupported. -/
def handleNtuple (count : Nat) (args : List Var) (kwargs : List (String × Var))
    (value : Var) : Except Err Var :=
  if value.hasUnpackVarSequence then
    .ok (.tupleVr value.unpackVarSequence (optionsGuards (value :: args) kwargs))
  else if value.isPythonConstant then
    match value.asPythonConstant with
    | .ok c =>
        .ok (.const (pyNtuple count c) (optionsGuards (value :: args) kwargs))
    | .error e => .error e
  else
    .error (.unsupported ("torch.nn.modules.utils._ntuple(" ++
      value.kindName ++ ")"))

/-- Embeds `TorchVariable._call_ntuple`: extract the tuple arity (from the
first argument for `_ntuple`, from the closure cell for the fixed family),
then either return the deferred handler as a lambda variable (`_ntuple`) or
apply it immediately to the first argument (fixed family). -/
def callNtuple (value : Op) (args : List Var) (kwargs : List (String × Var))
    (options : GuardSet) : Except Err Var := do
  let count ←
    if value = .ntuple then
      match args.head? with
      | Option.none => Except.error (.fatal "IndexError: args[0]")
      | some a =>
          match a.asPythonConstant with
          | .ok (.int n) => Except.ok n.toNat
          | .ok _ => Except.error (.fatal "assert isinstance(count, int)")
          | .error e => Except.error e
    else
      match value with
      | .single => Except.ok 1
      | .pair => Except.ok 2
      | .triple => Except.ok 3
      | .quadruple => Except.ok 4
      | _ => Except.error (.fatal "_call_ntuple: no closure cell")
  if value = .ntuple then
    .ok (.lambdaV (.handleNtuple count) options)
  else
    match args.head? with
    | Option.none => Except.error (.fatal "IndexError: args[0]")
    | some v => handleNtuple count args kwargs v

/-- Invocation of a deferred lambda variable on one value: the only handler
an embedded claim invokes is `handle_ntuple`; the module-constructor rewrite
closures are not invoked by any claim and are left abstract. -/
def applyLambda (tag : LamTag) (value : Var) : Except Err Var :=
  match tag with
  | .handleNtuple count => handleNtuple count [] [] value
  | _ => .error (.fatal "lambda handler not modelled")

/-- Bind one parameter of a python signature from positional and keyword
arguments, with python calling-convention errors (`TypeError`) as fatal. -/
def bindParam (args : List Var) (kwargs : List (String × Var)) (idx : Nat)
    (nm : String) (default : Option Var) : Except Err Var :=
  match args[idx]? with
  | some a =>
      if kwargs.any (fun p => p.1 == nm) then
        .error (.fatal ("TypeError: multiple values for argument " ++ nm))
      else .ok a
  | Option.none =>
      match kwargs.find? (fun p => p.1 == nm) with
      | some p => .ok p.2
      | Option.none =>
          match default with
          | some d => .ok d
          | Option.none =>
              .error (.fatal ("TypeError: missing argument " ++ nm))

/-- Embeds `TorchVariable.is_dynamic_shapes`: data-dependent-shape
operators, single-argument `where`, and `arange` / `repeat_interleave` with
a non-constant bound argument (bound through the local python signatures of
the source, whose calling-convention failures are fatal). -/
def isDynamicShapes (value : Op) (args : List Var)
    (kwargs : List (String × Var)) : Except Err Bool :=
  if value = .nonzero ∨ value = .unique ∨ value = .uniqueConsecutive ∨
      value.name == "nms" then
    .ok true
  else if value = .whereOp ∧ args.length + kwargs.length = 1 then
    .ok true
  else if value = .arange then
    if 3 < args.length then
      .error (.fatal "TypeError: arange expected at most 3 arguments")
    else do
      let noneConst : Var := .const .none ∅
      let s ← bindParam args kwargs 0 "start" (some noneConst)
      let e ← bindParam args kwargs 1 "end" (some noneConst)
      let st ← bindParam args kwargs 2 "step" (some noneConst)
      .ok (!(s.isPythonConstant && e.isPythonConstant && st.isPythonConstant))
  else if value = .repeatInterleave then
    if 3 < args.length then
      .error (.fatal "TypeError: repeat_interleave expected at most 3 arguments")
    else do
      let noneConst : Var := .const .none ∅
      let _input ← bindParam args kwargs 0 "input" Option.none
      let reps ← bindParam args kwargs 1 "repeats" Option.none
      let _dim ← bindParam args kwargs 2 "dim" (some noneConst)
      .ok (!reps.isPythonConstant)
  else
    .ok false

/-- The guard installed for grad-mode introspection
(`GradModeVariable._guards_singleton`), as an abstract guard identity. -/
def gradModeGuard : Nat := 0

/-- Python truthiness of a concrete value, used where the source passes a
constant into a boolean position. -/
def PyVal.truthy : PyVal → Bool
  | .int n => n ≠ 0
  | .float q => q ≠ 0
  | .bool b => b
  | .str s => s ≠ ""
  | .none => false
  | .tup xs => !xs.isEmpty
  | .listV xs => !xs.isEmpty

/-- The `isinstance(x, DynamicShapeVariable)` test. -/
def Var.isDynShapeVar : Var → Bool
  | .dynShape .. => true
  | _ => false

/-- The `utils.product` of a statically known shape. -/
def natProduct (xs : List Nat) : Nat := xs.foldl (fun a b => a * b) 1

/-- The fixed arithmetic name set of the symbolic-scalar binary-op guard. -/
def binOpNames : List String := ["add", "sub", "mul", "div", "sqrt"]

/-- The rebinding loop of the `out=` handling for tuple results: for each
out-target name (in order), assert the name is bound in the symbolic-locals
table, then rebind it to the result item of the same index; running out of
result items is a fatal index error, a missing name a fatal assertion. -/
def rebindOutNames : TxState → List (Option String) → List Var →
    Except Err TxState
  | tx, [], _ => .ok tx
  | tx, nm? :: names, items =>
      match nm? with
      | Option.none => .error (.fatal "assert name in tx.symbolic_locals")
      | some nm =>
          if tx.symbolicLocals.any (fun p => p.1 == nm) then
            match items with
            | [] => .error (.fatal "IndexError: tuple index out of range")
            | it :: rest =>
                rebindOutNames (tx.setSymbolicLocal nm it) names rest
          else .error (.fatal "assert name in tx.symbolic_locals")

/-- The generic-fallback tail of `TorchVariable.call_function` (source lines
425-504): the symbolic-scalar binary-op guard, the numpy scalar coercion for
fixed-dtype tensor constructors, the symbolic square-root substitution, the
emission of the `call_function` graph node with proxy-converted arguments,
and the `out=` rebinding of symbolic locals. -/
def callTorchGeneric (env : Env) (value : Op) (args : List Var)
    (kwargs : List (String × Var)) (tx : TxState) (options : GuardSet) :
    Except Err (Var × TxState) :=
  let anySym := args.any Var.isDynShapeVar
  let allIntsOrFloats := args.all fun x =>
    match x with
    | .const .. => true
    | .dynShape .. => true
    | _ => false
  if value.module == "torch" ∧ value.name ∈ binOpNames ∧ anySym ∧
      allIntsOrFloats then
    .error (.unsupported ("Calling torch." ++ value.name ++
      " on only torch.SymInt arguments is not yet supported"))
  else do
    let args2 :=
      if env.hasNumpy ∧ value.isTensorTypeCtor then
        match args with
        | [.listVr items g] =>
            if (Var.listVr items g).isPythonConstant then
              [Var.listVr (items.map fun x =>
                  match x with
                  | .const v cg => .const (env.coerceNumpy v) cg
                  | y => y) g]
            else args
        | _ => args
      else args
    let target : Target :=
      if args2.any Var.isDynShapeVar ∧ value = .mathSqrt then .symSqrt
      else .torchFn value
    let (pargs, pkwargs) ← proxyArgsKwargs args2 kwargs
    let (o2, p) := tx.output.createProxyFn target pargs pkwargs
    let (tensorVariable, o3) := wrapFxProxy (env.fakeTupleArity value) p options o2
    let tx2 := { tx with output := o3 }
    match kwargs.find? (fun q => q.1 == "out") with
    | Option.none => .ok (tensorVariable, tx2)
    | some (_, outV) =>
        match tensorVariable with
        | .tupleVr items _ =>
            match outV with
            | .tupleVr outItems _ => do
                let names := outItems.map (findSymbolicLocalsName tx2)
                let tx3 ← rebindOutNames tx2 names items
                .ok (tensorVariable, tx3)
            | _ =>
                .error (.fatal "assert isinstance(kwargs[out], TupleVariable)")
        | .tensor .. =>
            match outV with
            | .tensor .. =>
                match findSymbolicLocalsName tx2 outV with
                | some nm =>
                    if tx2.symbolicLocals.any (fun q => q.1 == nm) then
                      .ok (tensorVariable, tx2.setSymbolicLocal nm tensorVariable)
                    else .error (.fatal "assert name in tx.symbolic_locals")
                | Option.none =>
                    .error (.fatal "assert name in tx.symbolic_locals")
            | _ =>
                .error (.fatal "assert isinstance(kwargs[out], TensorVariable)")
        | _ => .error (.unsupported ("out variant of " ++ outV.kindName))

/-- The special-case segment of `TorchVariable.call_function` after the
dynamic-shape gate (source lines 277-424): tensor-subclass override
dispatch, autocast and profiler context managers, the explicit unsupported
points, `jit.annotate`, `cudnn.is_acceptable`, the generator-state
operators, the `numel` method rewrite, and the addcdiv decomposition (whose
chained calls re-enter classification through `recur`); everything else
falls to the generic tail. -/
def callTorchPost (env : Env)
    (recur : Op → List Var → List (String × Var) → TxState →
      Except Err (Var × TxState))
    (value : Op) (args : List Var) (kwargs : List (String × Var))
    (tx : TxState) (options : GuardSet) : Except Err (Var × TxState) :=
  match args with
  | .tfOverride inner fnT subT _ :: rest => do
      let (unwrapped, tx2) ←
        env.inlineTFOverride value fnT subT (inner :: rest) kwargs tx
      if env.nowrapFn value then .ok (unwrapped, tx2)
      else .ok (.tfOverride unwrapped fnT subT ∅, tx2)
  | _ =>
  if value = .ampAutocast then
    .ok (.autocast ∅, tx)
  else if value ∈ [Op.profilerProfile, .profilerRecordFunction,
      .autogradProfilerProfile, .autogradProfilerRecordFunction] then
    .ok (.nullCtx options, tx)
  else if value = .profilerEnabled then
    .error (.unsupported "torch.autograd._profiler_enabled not supported yet")
  else if value = .jitAnnotate then
    match args with
    | [_, b] => .ok (b, tx)
    | _ => .error (.fatal "assert len(args) == 2")
  else if value = .cudnnIsAcceptable then
    if args.length = 1 ∨ kwargs.any (fun p => p.1 == "tensor") then
      let tv : Option Var :=
        match args.head? with
        | some a => some a
        | Option.none => (kwargs.find? (fun p => p.1 == "tensor")).map
            (fun p => p.2)
      match tv with
      | some (.tensor dt dev _ _ _) =>
          .ok (.const (.bool (env.cudnnAcceptable dt dev)) options, tx)
      | some _ =>
          .error (.fatal "Expect input to cudnn.is_acceptable to be a tensor")
      | Option.none =>
          .error (.fatal "Expect 1 input to cudnn.is_acceptable")
    else .error (.fatal "Expect 1 input to cudnn.is_acceptable")
  else if value = .generatorGetState then do
    let (pargs, pkwargs) ← proxyArgsKwargs args kwargs
    let (o2, p) := tx.output.createProxyFn .getStateFromGenerator pargs pkwargs
    let (v, o3) := wrapFxProxy Option.none p options o2
    .ok (v, { tx with output := o3 })
  else if value = .generatorSetState ∨ value = .randomSetRngState then
    match args with
    | [a] =>
        match a with
        | .tensor .. =>
            .error (.unsupported
              "TODO: make torch.random.set_rng_state work with FakeTensor/aot_autograd")
        | _ => .error (.fatal "assert isinstance(args[0], TensorVariable)")
    | _ => .error (.fatal "assert len(args) == 1")
  else if decide (value = .numel) &&
      (match args with
       | [Var.tensor ..] => kwargs.isEmpty
       | _ => false) then do
    let (pargs, pkwargs) ← proxyArgsKwargs args kwargs
    let (o2, p) := tx.output.createProxyMethod "numel" pargs pkwargs
    let (v, o3) := wrapFxProxy Option.none p options o2
    .ok (v, { tx with output := o3 })
  else if value = .addcdiv ∧ args.length = 3 ∧
      kwargs.any (fun p => p.1 == "value") ∧ kwargs.length = 1 then
    match args, kwargs with
    | [a0, a1, a2], [(_, vv)] => do
        let (r1, tx1) ← recur (remapTensorDunder .divOp) [a1, a2] [] tx
        let (r2, tx2) ← recur (remapTensorDunder .mulOp) [r1, vv] [] tx1
        recur (remapTensorDunder .addOp) [a0, r2] [] tx2
    | _, _ => .error (.fatal "unreachable: addcdiv arity")
  else
    callTorchGeneric env value args kwargs tx options

/-- The front segment of `TorchVariable.call_function` after constant
folding and before the post-gate special cases (source lines 214-276):
module constructors, the type-predicate shortcuts, the numel and
shape-as-tensor shortcuts, the tuple normalizers, the grad-mode context
managers, and the dynamic-shape gate. -/
def callTorchPre (env : Env)
    (recur : Op → List Var → List (String × Var) → TxState →
      Except Err (Var × TxState))
    (value : Op) (args : List Var) (kwargs : List (String × Var))
    (tx : TxState) (options : GuardSet) : Except Err (Var × TxState) :=
  if value.isNnModuleType then
    if value = .softmaxModule then
      .ok (.lambdaV .fakeSoftmax options, tx)
    else if value = .crossEntropyLossModule then
      if args.length ≤ 6 then
        .ok (.lambdaV .fakeCrossEntropyLoss options, tx)
      else .error (.fatal "TypeError: normalize_args")
    else .error (.unsupported ("construct nn.Module: " ++ value.name))
  else if value = .isTensor ∨ value = .isTensorLike then
    match args with
    | [a] =>
        let res : Bool :=
          match a with
          | .tensor .. => true
          | .userObj hasTF _ => decide (value = .isTensorLike) && hasTF
          | _ => false
        .ok (.const (.bool res) options, tx)
    | _ => .error (.fatal "assert len(args) == 1")
  else do
  let dt5 : Option DtypeV ←
    if value = .isFloatingPoint ∨ value = .isComplex then
      match args.head? with
      | Option.none => Except.error (Err.fatal "IndexError: args[0]")
      | some (.tensor (some d) _ _ _ _) => Except.ok (some d)
      | some _ => Except.ok Option.none
    else Except.ok Option.none
  match dt5 with
  | some d =>
      if value = .isFloatingPoint then
        .ok (.const (.bool d.isFloating) options, tx)
      else if value = .isComplex then
        .ok (.const (.bool d.isComplexD) options, tx)
      else .error (.fatal "AssertionError")
  | Option.none =>
  do
  let sz6 : Option (List Nat) ←
    if value = .numel then
      match args.head? with
      | Option.none => Except.error (Err.fatal "IndexError: args[0]")
      | some (.tensor _ _ (some sz) _ _) => Except.ok (some sz)
      | some _ => Except.ok Option.none
    else Except.ok Option.none
  match sz6 with
  | some sz => .ok (.const (.int (natProduct sz)) options, tx)
  | Option.none =>
  if value ∈ rewriteOpsToTensorSizeMethod then
    match args with
    | [a] =>
        match a with
        | .tensor .. => env.tensorSizeMethod a tx
        | _ => .error (.fatal "assert isinstance(args[0], TensorVariable)")
    | _ => .error (.fatal "assert len(args) == 1")
  else if value ∈ [Op.single, .pair, .triple, .quadruple, .ntuple] then
    match callNtuple value args kwargs options with
    | .ok v => .ok (v, tx)
    | .error e => .error e
  else if value = .noGrad then
    .ok (.gradMode false options, tx)
  else if value = .enableGrad then
    .ok (.gradMode true options, tx)
  else if value = .setGradEnabled ∧ args.length = 1 then
    match args.head? with
    | some a =>
        match a.asPythonConstant with
        | .ok c => .ok (.gradMode c.truthy options, tx)
        | .error e => .error e
    | Option.none => .error (.fatal "IndexError: args[0]")
  else if value = .isGradEnabled then
    if args.isEmpty ∧ kwargs.isEmpty then
      .ok (.const (.bool env.gradEnabled) (options ∪ {gradModeGuard}), tx)
    else .error (.fatal "assert not (args or kwargs)")
  else do
    let dyn ←
      if !env.dynamicShapes then isDynamicShapes value args kwargs
      else Except.ok false
    if dyn then
      .error (.unsupported ("dynamic shapes: " ++ value.name))
    else
      callTorchPost env recur value args kwargs tx options

/-- The constant-folding rule of `TorchVariable.call_function` (source
lines 204-213): with every argument constant or unspecialized scalar and a
fold-eligible operator, specialize the arguments and evaluate the operator
concretely, propagating any evaluation failure as a fatal error; otherwise
continue down the dispatch chain. -/
def callTorchFold (env : Env)
    (recur : Op → List Var → List (String × Var) → TxState →
      Except Err (Var × TxState))
    (value : Op) (args : List Var) (kwargs : List (String × Var))
    (tx : TxState) : Except Err (Var × TxState) :=
  let constantArgs := checkConstantArgs args kwargs
  let unspecPythonArgs := checkUnspecPythonArgs args kwargs
  let options := optionsGuards args kwargs
  if value.canConstantFoldThrough ∧ (constantArgs ∨ unspecPythonArgs) then do
    let args2 := args.map specializeVar
    let kwargs2 := kwargs.map (fun p => (p.1, specializeVar p.2))
    let vals ← args2.mapM Var.asPythonConstant
    let kvals ← kwargs2.mapM
      (fun p => (p.2.asPythonConstant).map (fun v => (p.1, v)))
    match env.evalConcrete value vals kvals with
    | .ok r => .ok (.const r options, tx)
    | .error e => .error (.fatal e)
  else
    callTorchPre env recur value args kwargs tx options

/-- Embeds `TorchVariable.call_function` — the operator classifier dispatch
chain, in source order: the fixed constant table (source lines 201-203),
then the staged remainder of the chain.  The explicit `fuel` makes the sole
recursion of the source (the addcdiv decomposition re-entering
`call_function` on `div`, `mul` and `add`, which themselves do not recurse)
structurally terminating; the public entry point supplies fuel 2, which the
decomposition never exhausts. -/
def callTorchAux (env : Env) : Nat → Op → List Var → List (String × Var) →
    TxState → Except Err (Var × TxState)
  | 0, _, _, _, _ => .error (.fatal "recursion depth exceeded")
  | fuel + 1, value, args, kwargs, tx =>
    match configConstantFunctions value with
    | some cv =>
        if args.isEmpty ∧ kwargs.isEmpty then
          .ok (.const cv (optionsGuards args kwargs), tx)
        else .error (.fatal "assert not args and not kwargs")
    | Option.none =>
        callTorchFold env
          (fun v a k t => callTorchAux env fuel v a k t) value args kwargs tx

/-- The public classifier entry point (`TorchVariable(value).call_function`):
the constructor applies the tensor-dunder remap, then classification runs
with enough fuel for the addcdiv decomposition. -/
def classifyCall (env : Env) (value : Op) (args : List Var)
    (kwargs : List (String × Var)) (tx : TxState) :
    Except Err (Var × TxState) :=
  callTorchAux env 2 (remapTensorDunder value) args kwargs tx

/-- The graph-input name for a proxy node (`a.as_proxy().node.name`). -/
def proxyNodeName (p : Nat) : String := "p" ++ Nat.repr p

/-- Embeds the comparable-state projection of `speculate_branch`
(`state._replace(output=state.output._replace(...))`): empty the guard
state, rebuild the side-effect log without new-cell records and without
mutations keyed by newly constructed objects and with an empty keepalive
list, null the sub-module table reference, zero the timestamp, and empty
the input-name table. -/
def comparableState (state : TxGraphState) : TxGraphState :=
  { state with
      output :=
        { state.output with
            guardState := ∅
            sideEffects :=
              { idToVariable :=
                  state.output.sideEffects.idToVariable.filter
                    (fun p => !p.2.isNewCell)
                storeAttrMutations :=
                  state.output.sideEffects.storeAttrMutations.filter
                    (fun p => !p.1.isNew)
                keepalive := [] }
            nnModules := Option.none
            timestamp := 0
            nameToInput := [] } }

/-- Modelled from the spec: the structural diff of two checkpoints that the
speculator reports in its Unsupported message (`true_cmp.diff(false_cmp)`,
an external method of the checkpoint class) — here, the comma-separated
names of the differing components. -/
def diffStates (a b : TxGraphState) : String :=
  String.intercalate ", " (List.filterMap (fun x => x)
    [if a.output.graphargs ≠ b.output.graphargs then some "graphargs"
     else Option.none,
     if a.output.guardState ≠ b.output.guardState then some "guard_state"
     else Option.none,
     if a.output.nnModules ≠ b.output.nnModules then some "nn_modules"
     else Option.none,
     if a.output.sideEffects ≠ b.output.sideEffects then some "side_effects"
     else Option.none,
     if a.output.timestamp ≠ b.output.timestamp then some "timestamp"
     else Option.none,
     if a.output.nameToInput ≠ b.output.nameToInput then some "name_to_input"
     else Option.none,
     if a.symbolicLocals ≠ b.symbolicLocals then some "symbolic_locals"
     else Option.none,
     if a.frame ≠ b.frame then some "frame" else Option.none])

/-- Embeds the `speculate_branch` closure: install a fresh empty fragment
with cleared graph-argument and input-name bookkeeping, declare one graph
input per operand (each must be a tensor variable), inline the branch
function on the operands, require a single tensor result, record its guards
and emit it as the fragment's output, prune dead new-object side effects,
checkpoint the resulting state and form its comparable projection, then
restore the fragment and the enclosing checkpoint.  Returns the branch
result, the captured fragment, the captured guard set, the captured
sub-module table, the comparable projection, and the restored trace
state. -/
def speculateBranch (env : Env) (graphCheckpoint : Graph)
    (checkpoint : TxGraphState) (trueFnTag falseFnTag : Nat)
    (subArgs : List Var) (branch : Bool) (tx : TxState) :
    Except Err (Var × Graph × GuardSet × Option NnTable × TxGraphState ×
      TxState) := do
  let tx1 : TxState :=
    { tx with
        output :=
          { tx.output with graph := ⟨[], 0⟩, graphargs := [], nameToInput := [] } }
  let tx2 ← subArgs.foldlM
    (fun acc a =>
      match a with
      | .tensor _ _ _ p _ =>
          Except.ok
            { acc with output := acc.output.createGraphInput (proxyNodeName p) }
      | _ => Except.error (Err.fatal "assert isinstance(a, TensorVariable)"))
    tx1
  let fnTag := if branch then trueFnTag else falseFnTag
  let (outv, tx3) ← env.runUserFn fnTag tx2 subArgs
  match outv with
  | .tensor _ _ _ p og =>
      let tx4 :=
        { tx3 with
            output := { tx3.output with guards := tx3.output.guards ∪ og } }
      let tx5 := { tx4 with output := tx4.output.createNodeOutput [.tup [.proxy p]] }
      let tx6 :=
        { tx5 with
            output :=
              { tx5.output with
                  sideEffects := env.pruneDeadObjectNew tx5.output.sideEffects } }
      let state := tx6.copyGraphstate
      let guards := state.output.guardState
      let nnModules := state.output.nnModules
      let cmp := comparableState state
      let graph := tx6.output.graph
      let tx7 := { tx6 with output := { tx6.output with graph := graphCheckpoint } }
      let tx8 := tx7.restoreGraphstate checkpoint
      Except.ok (outv, graph, guards, nnModules, cmp, tx8)
  | _ => Except.error (Err.fatal "assert isinstance(output, TensorVariable)")

/-- Embeds the `add_subgraph` closure: probe `i = 0, 1, ...` for the first
free sub-module key `cond_<label>_<i>` (encoded here as the pair
`(label, i)`), then register the branch fragment under it (registered
values are abstracted to opaque ids).  Probing a table of `n` entries needs
at most `n + 1` candidates, so the bounded search below never returns the
unreachable-error arm. -/
def addSubgraph (label : String) (tx : TxState) :
    Except Err (ModKey × TxState) :=
  match tx.output.nnModules with
  | Option.none =>
      .error (.fatal "TypeError: argument of type NoneType is not iterable")
  | some tbl =>
      match (List.range (tbl.length + 1)).find?
          (fun i => !(tbl.any (fun e => e.1 == ((label, i) : ModKey)))) with
      | some i =>
          .ok (((label, i) : ModKey),
            { tx with
                output :=
                  { tx.output with
                      nnModules := some (tbl ++ [((label, i), tbl.length)]) } })
      | Option.none => .error (.fatal "unreachable: no free sub-module name")

/-- Embeds `TorchPyOperator.call_function` — the conditional higher-order
operator: check preconditions, checkpoint, speculate the true branch then
the false branch, require the comparable projections to agree (otherwise
Unsupported carrying the structural diff), union both branch guard sets
into the guard accumulator, register both fragments as probing-named
sub-modules, adopt the true branch's side effects, and emit one call node
invoking the operator on (predicate, true fragment, false fragment, operand
tuple), with the result metadata taken from the true branch's result. -/
def condCall (env : Env) (opName : String) (args : List Var)
    (kwargs : List (String × Var)) (tx : TxState) :
    Except Err (Var × TxState) := do
  if !kwargs.isEmpty then .error (.fatal "kwargs are not supported, yet")
  else if opName = "cond" then
    match args with
    | [pred, tFn, fFn, opnds] => do
        let predProxy ←
          match pred with
          | .tensor _ _ _ p _ => Except.ok p
          | _ => Except.error (Err.fatal "assert type(args[0]) is TensorVariable")
        let tTag ←
          match tFn with
          | .userFn t _ => Except.ok t
          | _ =>
              Except.error
                (Err.fatal "assert isinstance(args[1], UserFunctionVariable)")
        let fTag ←
          match fFn with
          | .userFn t _ => Except.ok t
          | _ =>
              Except.error
                (Err.fatal "assert isinstance(args[2], UserFunctionVariable)")
        let subArgs ←
          match opnds with
          | .listVr items _ => Except.ok items
          | _ => Except.error (Err.fatal "assert type(args[3]) is ListVariable")
        let graphCheckpoint := tx.output.graph
        let checkpoint := tx.copyGraphstate
        let (trueR, _trueGraph, trueGuards, _trueNn, trueCmp, tx1) ←
          speculateBranch env graphCheckpoint checkpoint tTag fTag subArgs
            true tx
        let (_falseR, _falseGraph, falseGuards, _falseNn, falseCmp, tx2) ←
          speculateBranch env graphCheckpoint checkpoint tTag fTag subArgs
            false tx1
        if trueCmp ≠ falseCmp then
          .error (.unsupported (diffStates trueCmp falseCmp))
        else do
          let tx3 :=
            { tx2 with
                output :=
                  { tx2.output with
                      guards := tx2.output.guards ∪ falseGuards ∪ trueGuards } }
          let (trueName, tx4) ← addSubgraph "true" tx3
          let (falseName, tx5) ← addSubgraph "false" tx4
          let tx6 :=
            { tx5 with
                output :=
                  { tx5.output with
                      sideEffects := trueCmp.output.sideEffects } }
          let (o7, pT) := tx6.output.createGetAttr trueName
          let (o8, pF) := o7.createGetAttr falseName
          let subProxies ←
            match Var.asProxyList subArgs with
            | some ps => Except.ok ps
            | Option.none => Except.error (Err.fatal "as_proxy")
          let pArgs : List PArg :=
            [.proxy predProxy, .proxy pT, .proxy pF, .tup subProxies]
          let (o9, p) := o8.createProxyFn (.pyOperator opName) pArgs []
          let exampleRes : Var :=
            match trueR with
            | .tensor dt dev sz _ _ => .tensor dt dev sz p ∅
            | _ => .tensor Option.none "fake" Option.none p ∅
          Except.ok (exampleRes, { tx6 with output := o9 })
    | _ => .error (.fatal "assert len(args) == 4")
  else .error (.unsupported ("PyOperator " ++ opName))

/-- The projection asserted by claim C2, written from the claim's own words:
the checkpoint with exactly the guard set, the new-closure-cell side-effect
records, the new-object attribute-mutation records, the sub-module table
reference, the timestamp and the input-name table cleared — and every
remaining field, including the keepalive list of the side-effect log,
carried unchanged. -/
def claimedComparable (state : TxGraphState) : TxGraphState :=
  { state with
      output :=
        { state.output with
            guardState := ∅
            sideEffects :=
              { idToVariable :=
                  state.output.sideEffects.idToVariable.filter
                    (fun p => !p.2.isNewCell)
                storeAttrMutations :=
                  state.output.sideEffects.storeAttrMutations.filter
                    (fun p => !p.1.isNew)
                keepalive := state.output.sideEffects.keepalive }
            nnModules := Option.none
            timestamp := 0
            nameToInput := [] } }

/-- The amended projection for claim C2: as claimed, but the keepalive list
of the side-effect log is also emptied. -/
def claimedComparableAmended (state : TxGraphState) : TxGraphState :=
  { state with
      output :=
        { state.output with
            guardState := ∅
            sideEffects :=
              { idToVariable :=
                  state.output.sideEffects.idToVariable.filter
                    (fun p => !p.2.isNewCell)
                storeAttrMutations :=
                  state.output.sideEffects.storeAttrMutations.filter
                    (fun p => !p.1.isNew)
                keepalive := [] }
            nnModules := Option.none
            timestamp := 0
            nameToInput := [] } }

/-- Modelled from the spec: idealized concrete numeric semantics (over exact
rationals) of the three scalar-capable operators the addcdiv decomposition
chains together; the framework operators themselves live outside the
embedded file. -/
def evalBinTarget : Target → List ℚ → Option ℚ
  | .torchFn .divOp, [a, b] => some (a / b)
  | .torchFn .mulOp, [a, b] => some (a * b)
  | .torchFn .addOp, [a, b] => some (a + b)
  | _, _ => Option.none

/-- Modelled from the spec: the native addcdiv operator on concrete numbers,
`addcdiv(input, t1, t2, value=v) = input + v * (t1 / t2)` (the operator
itself lives outside the embedded file). -/
def addcdivConcrete (a b c v : ℚ) : ℚ := a + v * (b / c)

/-- Concrete evaluation of a proxy argument under a valuation of proxies. -/
def evalPArg (rho : Nat → Option ℚ) : PArg → Option ℚ
  | .proxy n => rho n
  | .constV (.int n) => some ((n : ℚ))
  | .constV (.float q) => some q
  | _ => Option.none

/-- Concrete evaluation of a graph fragment: run the call nodes in order,
extending the proxy valuation with each node's result. -/
def runGraph (nodes : List GNode) (rho : Nat → Option ℚ) : Nat → Option ℚ :=
  match nodes with
  | [] => rho
  | .callFunction p t args _ :: rest =>
      runGraph rest (fun n =>
        if n = p then
          match args.mapM (evalPArg rho) with
          | some vs => evalBinTarget t vs
          | Option.none => Option.none
        else rho n)
  | _ :: rest => runGraph rest rho

/-- Whether a node list contains a call of the given framework operator. -/
def hasCallTo (nodes : List GNode) (op : Op) : Bool :=
  nodes.any fun n =>
    match n with
    | .callFunction _ (.torchFn o) _ _ => o == op
    | _ => false

/-- The symbolic-locals binding of a name, as consulted by the claims about
`out=` rebinding. -/
def lookupLocal (tx : TxState) (nm : String) : Option Var :=
  (tx.symbolicLocals.find? (fun p => p.1 == nm)).map (fun p => p.2)

/-- A concrete environment for witness evaluations: dynamic-shape tracing
disabled, numpy present, a scalar-math concrete evaluator, a cudnn
acceptability table keyed on dtype and device, a tuple-returning operator
(`torch.sort`), and user-function semantics for branch bodies (tags 1 and 2
differ only in their guard, tag 3 leaves a side-effect record behind). -/
def envW : Env :=
  { dynamicShapes := false
    gradEnabled := true
    hasNumpy := true
    evalConcrete := fun op vals _ =>
      match op, vals with
      | .other "math" "add2", [.int x, .int y] => .ok (.int (x + y))
      | _, _ => .error "TypeError"
    cudnnAcceptable := fun dt dev => dt == some DtypeV.float32 && dev == "cuda"
    fakeTupleArity := fun op =>
      if op = .other "torch" "sort" then some 2 else Option.none
    runUserFn := fun tag tx _ =>
      if tag = 1 then .ok (.tensor Option.none "cpu" Option.none 50 {11}, tx)
      else if tag = 2 then
        .ok (.tensor Option.none "cpu" Option.none 60 {12}, tx)
      else if tag = 3 then
        .ok (.tensor Option.none "cpu" Option.none 70 ∅,
          { tx with
              output :=
                { tx.output with
                    sideEffects := ⟨[(9, .otherVariable 5)], [], []⟩ } })
      else .error (.fatal "no user fn")
    inlineTFOverride := fun _ _ _ _ _ _ => .error (.fatal "tf override not run")
    nowrapFn := fun _ => false
    pruneDeadObjectNew := fun s => s
    tensorSizeMethod := fun _ _ => .error (.fatal "size method not run")
    coerceNumpy := fun v => v }

/-- A concrete live trace state for witness evaluations. -/
def txW : TxState :=
  { output :=
      { graph := ⟨[], 0⟩, graphargs := [], guards := ∅, nnModules := some []
        sideEffects := ⟨[], [], []⟩, timestamp := 0, nameToInput := [] }
    symbolicLocals := []
    frame := 0 }

/-- Whether a classification outcome is a Specialize outcome (a lambda). -/
def isSpecializeOutcome : Except Err (Var × TxState) → Bool
  | .ok (.lambdaV _ _, _) => true
  | _ => false

/-- A concrete post-branch checkpoint whose side-effect log has a nonempty
keepalive list. -/
def stKeep : TxGraphState :=
  { output :=
      { graphargs := [], guardState := ∅, nnModules := some []
        sideEffects := ⟨[], [], [7]⟩, timestamp := 3, nameToInput := [] }
    symbolicLocals := []
    frame := 0 }

/-- A live trace state with one pre-existing tensor binding, the target of a
single-tensor `out=` rebinding. -/
def txL : TxState :=
  { txW with symbolicLocals :=
      [("x", .tensor Option.none "cpu" Option.none 3 ∅)] }

/-- A live trace state with two pre-existing tensor bindings, the targets of
a tuple `out=` rebinding. -/
def txM : TxState :=
  { txW with symbolicLocals :=
      [("u", .tensor Option.none "cpu" Option.none 3 ∅),
       ("v", .tensor Option.none "cpu" Option.none 4 ∅)] }

/-- A live trace state with three pre-existing tensor bindings, exercising
an `out=` tuple longer than the produced result tuple. -/
def txE : TxState :=
  { txW with symbolicLocals :=
      [("a", .tensor Option.none "cpu" Option.none 3 ∅),
       ("b", .tensor Option.none "cpu" Option.none 4 ∅),
       ("c", .tensor Option.none "cpu" Option.none 5 ∅)] }

/-- The tail of `TorchPyOperator.call_function` after both branch
speculations, taking the two speculation results as sextuples (result,
fragment, guards, sub-module table, comparable projection, restored state):
the comparable-equality gate, the guard union, the two sub-module
registrations, the side-effect adoption, and the emission of the final cond
node. -/
def condJoin (opName : String) (predProxy : Nat)
    (subArgs : List Var)
    (x y : Var × Graph × GuardSet × Option NnTable × TxGraphState × TxState) :
    Except Err (Var × TxState) :=
  if x.2.2.2.2.1 ≠ y.2.2.2.2.1 then
    .error (.unsupported (diffStates x.2.2.2.2.1 y.2.2.2.2.1))
  else do
    let tx3 :=
      { y.2.2.2.2.2 with
          output :=
            { y.2.2.2.2.2.output with
                guards := y.2.2.2.2.2.output.guards ∪ y.2.2.1 ∪ x.2.2.1 } }
    let (trueName, tx4) ← addSubgraph "true" tx3
    let (falseName, tx5) ← addSubgraph "false" tx4
    let tx6 :=
      { tx5 with
          output :=
            { tx5.output with
                sideEffects := x.2.2.2.2.1.output.sideEffects } }
    let (o7, pT) := tx6.output.createGetAttr trueName
    let (o8, pF) := o7.createGetAttr falseName
    let subProxies ←
      match Var.asProxyList subArgs with
      | some ps => Except.ok ps
      | Option.none => Except.error (Err.fatal "as_proxy")
    let pArgs : List PArg :=
      [.proxy predProxy, .proxy pT, .proxy pF, .tup subProxies]
    let (o9, p) := o8.createProxyFn (.pyOperator opName) pArgs []
    let exampleRes : Var :=
      match x.1 with
      | .tensor dt dev sz _ _ => .tensor dt dev sz p ∅
      | _ => .tensor Option.none "fake" Option.none p ∅
    Except.ok (exampleRes, { tx6 with output := o9 })

theorem exists_free_subgraph_idx (tbl : NnTable) (label : String) :
    ∃ i, (List.range (tbl.length + 1)).find?
      (fun i => !(tbl.any (fun e => e.1 == ((label, i) : ModKey)))) = some i := by
  rcases h : (List.range (tbl.length + 1)).find?
      (fun i => !(tbl.any (fun e => e.1 == ((label, i) : ModKey)))) with _ | i
  · exfalso
    rw [List.find?_eq_none] at h
    have hin : ∀ i < tbl.length + 1, ((label, i) : ModKey) ∈ tbl.map Prod.fst := by
      intro i hi
      have hi2 : tbl.any (fun e => e.1 == ((label, i) : ModKey)) = true := by
        have hi0 := h i (List.mem_range.mpr hi)
        simpa using hi0
      rcases List.any_eq_true.mp hi2 with ⟨e, he, heq⟩
      have he2 : e.1 = ((label, i) : ModKey) := beq_iff_eq.mp heq
      exact he2 ▸ List.mem_map_of_mem Prod.fst he
    have hsub : (Finset.range (tbl.length + 1)).image
        (fun i => ((label, i) : ModKey)) ⊆ (tbl.map Prod.fst).toFinset := by
      intro k hk
      rcases Finset.mem_image.mp hk with ⟨i, hi, rfl⟩
      exact List.mem_toFinset.mpr (hin i (Finset.mem_range.mp hi))
    have hinj : Function.Injective (fun i => ((label, i) : ModKey)) := by
      intro a b hab
      simpa using congrArg Prod.snd hab
    have hcard1 : ((Finset.range (tbl.length + 1)).image
        (fun i => ((label, i) : ModKey))).card = tbl.length + 1 := by
      rw [Finset.card_image_of_injective _ hinj, Finset.card_range]
    have hcard2 : ((tbl.map Prod.fst).toFinset).card ≤ tbl.length := by
      calc ((tbl.map Prod.fst).toFinset).card ≤ (tbl.map Prod.fst).length :=
            List.toFinset_card_le _
        _ = tbl.length := List.length_map _ _
    have hle := Finset.card_le_card hsub
    omega
  · exact ⟨i, rfl⟩

theorem addSubgraph_ok (label : String) (tx : TxState) (tbl : NnTable)
    (h : tx.output.nnModules = some tbl) :
    ∃ i, addSubgraph label tx =
      .ok (((label, i) : ModKey),
        { tx with
            output :=
              { tx.output with
                  nnModules := some (tbl ++ [((label, i), tbl.length)]) } }) := by
  obtain ⟨i, hi⟩ := exists_free_subgraph_idx tbl label
  exact ⟨i, by simp [addSubgraph, h, hi]⟩

theorem findSymbolicLocalsName_any {tx : TxState} {v : Var} {nm : String}
    (h : findSymbolicLocalsName tx v = some nm) :
    tx.symbolicLocals.any (fun p => p.1 == nm) = true := by
  unfold findSymbolicLocalsName at h
  rcases hf : tx.symbolicLocals.find? (fun q => q.2 == v) with _ | q
  · rw [hf] at h; cases h
  · rw [hf] at h
    simp only [Option.map_some'] at h
    cases h
    have hq := List.mem_of_find?_eq_some hf
    exact List.any_eq_true.mpr ⟨q, hq, by simp⟩

theorem find?_map_replace (l : List (String × Var)) (nm : String) (v : Var) :
    (l.map (fun p => if p.1 == nm then (nm, v) else p)).find?
        (fun p => p.1 == nm) =
      if l.any (fun p => p.1 == nm) then some (nm, v) else Option.none := by
  induction l with
  | nil => rfl
  | cons hd t ih =>
      by_cases hh : hd.1 = nm
      · have hb : (hd.1 == nm) = true := beq_iff_eq.mpr hh
        rw [List.map_cons, List.any_cons, hb]
        simp only [hb, if_true, Bool.true_or]
        rw [List.find?_cons_of_pos _ (by simp)]
      · have hne : (hd.1 == nm) = false := beq_eq_false_iff_ne.mpr hh
        rw [List.map_cons, List.any_cons, hne]
        simp only [hne, if_false, Bool.false_or]
        rw [List.find?_cons_of_neg _ (by simp [hne]), ih]

theorem lookupLocal_set (tx : TxState) (nm : String) (v : Var) :
    lookupLocal (tx.setSymbolicLocal nm v) nm = some v := by
  unfold lookupLocal TxState.setSymbolicLocal
  by_cases hany : tx.symbolicLocals.any (fun p => p.1 == nm) = true
  · rw [if_pos hany]
    simp only []
    rw [find?_map_replace, if_pos hany]
    rfl
  · rw [if_neg hany]
    have hfind : tx.symbolicLocals.find? (fun p => p.1 == nm) = Option.none := by
      rw [List.find?_eq_none]
      intro x hx hxe
      exact hany (List.any_eq_true.mpr ⟨x, hx, hxe⟩)
    simp only []
    rw [List.find?_append, hfind]
    simp [List.find?]

/-- Claim C2, counterexample: on a checkpoint whose side-effect keepalive
list is nonempty, the comparable projection computed by `speculate_branch`
differs from the projection the claim describes (which carries the
keepalive list unchanged), because the source also empties the keepalive
list. -/
theorem claim_C2_counterexample : comparableState stKeep ≠ claimedComparable stKeep := by
  decide

/-- Claim C2, amended: the comparable projection of the post-branch
checkpoint equals the checkpoint with exactly the claimed fields cleared —
the guard set, the new-closure-cell side-effect records, the
new-object attribute-mutation records, the sub-module table reference, the
timestamp, the input-name table — and, in addition, the keepalive list of
the side-effect log; every other checkpoint field (graph arguments, the
symbolic-locals snapshot, the remaining frame state, and the surviving
side-effect records) is carried into the projection unchanged and
participates in the inter-branch equality check. -/
theorem claim_C2_amended (state : TxGraphState) :
    comparableState state = claimedComparableAmended state := rfl

theorem classify_single_eq (env : Env) (tx : TxState) (v : Var) :
    classifyCall env .single [v] [] tx =
      (match handleNtuple 1 [v] [] v with
       | .ok r => Except.ok (r, tx)
       | .error e => Except.error e) := rfl

theorem classify_pair_eq (env : Env) (tx : TxState) (v : Var) :
    classifyCall env .pair [v] [] tx =
      (match handleNtuple 2 [v] [] v with
       | .ok r => Except.ok (r, tx)
       | .error e => Except.error e) := rfl

theorem classify_triple_eq (env : Env) (tx : TxState) (v : Var) :
    classifyCall env .triple [v] [] tx =
      (match handleNtuple 3 [v] [] v with
       | .ok r => Except.ok (r, tx)
       | .error e => Except.error e) := rfl

theorem classify_quadruple_eq (env : Env) (tx : TxState) (v : Var) :
    classifyCall env .quadruple [v] [] tx =
      (match handleNtuple 4 [v] [] v with
       | .ok r => Except.ok (r, tx)
       | .error e => Except.error e) := rfl

theorem classify_ntuple_lambda (env : Env) (tx : TxState) (k : Int)
    (g : GuardSet) :
    classifyCall env .ntuple [.const (.int k) g] [] tx =
      .ok (.lambdaV (.handleNtuple k.toNat)
        (optionsGuards [Var.const (.int k) g] []), tx) := rfl

theorem handleNtuple_unpack (count : Nat) (args : List Var)
    (kwargs : List (String × Var)) (v : Var)
    (h : v.hasUnpackVarSequence = true) :
    handleNtuple count args kwargs v =
      .ok (.tupleVr v.unpackVarSequence (optionsGuards (v :: args) kwargs)) := by
  unfold handleNtuple
  rw [if_pos h]

theorem handleNtuple_const (count : Nat) (args : List Var)
    (kwargs : List (String × Var)) (v : Var) (c : PyVal)
    (h : v.hasUnpackVarSequence = false) (hc : v.isPythonConstant = true)
    (hv : v.asPythonConstant = .ok c) :
    handleNtuple count args kwargs v =
      .ok (.const (pyNtuple count c) (optionsGuards (v :: args) kwargs)) := by
  unfold handleNtuple
  rw [if_neg (by simp [h]), if_pos hc, hv]

theorem handleNtuple_unsupported (count : Nat) (args : List Var)
    (kwargs : List (String × Var)) (v : Var)
    (h : v.hasUnpackVarSequence = false) (hc : v.isPythonConstant = false) :
    handleNtuple count args kwargs v =
      .error (.unsupported ("torch.nn.modules.utils._ntuple(" ++
        v.kindName ++ ")")) := by
  unfold handleNtuple
  rw [if_neg (by simp [h]), if_neg (by simp [hc])]

/-- Claim C7, counterexample: `_pair` applied to the constant `5` does not
return a Specialize outcome (a lambda) — the fixed-arity tuple normalizers
apply the handler immediately, so the classification is already the
constant-folded broadcast `(5, 5)`. -/
theorem claim_C7_counterexample :
    classifyCall envW .pair [Var.const (.int 5) ∅] [] txW =
      .ok (.const (.tup [.int 5, .int 5]) ∅, txW) ∧
    isSpecializeOutcome
      (classifyCall envW .pair [Var.const (.int 5) ∅] [] txW) = false :=
  ⟨by decide, by decide⟩

/-- Claim C7, amended: only the generic `_ntuple` constructor returns a
Specialize outcome (a lambda); the fixed-arity members `_single`, `_pair`,
`_triple` and `_quadruple` apply the same handling immediately to their
first argument.  The handling applied to one value yields the value's
elements as a tuple when the value supports sequence unpacking, a
constant-folded broadcast when the value is a known constant (in
particular, `_pair` on the constant `5` yields `(5, 5)`, and `_pair` on a
2-element sequence constant yields that sequence as a tuple), and
Unsupported for any other input. -/
theorem claim_C7_amended :
    (∀ (env : Env) (tx : TxState) (k : Int) (g : GuardSet),
      classifyCall env .ntuple [.const (.int k) g] [] tx =
        .ok (.lambdaV (.handleNtuple k.toNat)
          (optionsGuards [Var.const (.int k) g] []), tx)) ∧
    (∀ (count : Nat) (v : Var), v.hasUnpackVarSequence = true →
      applyLambda (.handleNtuple count) v =
        .ok (.tupleVr v.unpackVarSequence (optionsGuards [v] []))) ∧
    (∀ (count : Nat) (v : Var) (c : PyVal), v.hasUnpackVarSequence = false →
      v.isPythonConstant = true → v.asPythonConstant = .ok c →
      applyLambda (.handleNtuple count) v =
        .ok (.const (pyNtuple count c) (optionsGuards [v] []))) ∧
    (∀ (count : Nat) (v : Var), v.hasUnpackVarSequence = false →
      v.isPythonConstant = false →
      applyLambda (.handleNtuple count) v =
        .error (.unsupported ("torch.nn.modules.utils._ntuple(" ++
          v.kindName ++ ")"))) ∧
    (∀ (env : Env) (tx : TxState) (v : Var),
      classifyCall env .pair [v] [] tx =
        (match handleNtuple 2 [v] [] v with
         | .ok r => Except.ok (r, tx)
         | .error e => Except.error e)) ∧
    (classifyCall envW .pair
        [Var.const (.tup [.int 7, .int 9]) ∅] [] txW =
      .ok (.tupleVr [Var.const (.int 7) ∅, Var.const (.int 9) ∅] ∅, txW)) ∧
    (classifyCall envW .pair
        [Var.tensor Option.none "cpu" Option.none 3 ∅] [] txW =
      .error (.unsupported
        "torch.nn.modules.utils._ntuple(TensorVariable)")) := by
  refine ⟨classify_ntuple_lambda, ?_, ?_, ?_, classify_pair_eq, by decide,
    by decide⟩
  · intro count v h
    unfold applyLambda
    exact handleNtuple_unpack count [] [] v h
  · intro count v c h hc hv
    unfold applyLambda
    exact handleNtuple_const count [] [] v c h hc hv
  · intro count v h hc
    unfold applyLambda
    exact handleNtuple_unsupported count [] [] v h hc

/-- Claim C7, witness for the amended theorem: the handler on a 1-element
tuple value unpacks it, on the constant 5 broadcasts to a pair, and on a
tensor value is unsupported. -/
theorem claim_C7_witness :
    applyLambda (.handleNtuple 2) (Var.tupleVr [Var.const (.int 4) ∅] ∅) =
      .ok (.tupleVr [Var.const (.int 4) ∅]
        (optionsGuards [Var.tupleVr [Var.const (.int 4) ∅] ∅] [])) ∧
    applyLambda (.handleNtuple 2) (Var.const (.int 5) ∅) =
      .ok (.const (.tup [.int 5, .int 5])
        (optionsGuards [Var.const (.int 5) ∅] [])) ∧
    applyLambda (.handleNtuple 2)
        (Var.tensor Option.none "cpu" Option.none 3 ∅) =
      .error (.unsupported "torch.nn.modules.utils._ntuple(TensorVariable)") :=
  ⟨claim_C7_amended.2.1 2 (Var.tupleVr [Var.const (.int 4) ∅] ∅) rfl,
   claim_C7_amended.2.2.1 2 (Var.const (.int 5) ∅) (.int 5) rfl rfl rfl,
   claim_C7_amended.2.2.2.1 2
     (Var.tensor Option.none "cpu" Option.none 3 ∅) rfl rfl⟩

/-- Claim C10: every fixed-arity tuple normalizer applied to a value that
supports sequence unpacking returns the tuple of exactly that value's
elements, with no check of the constructor's nominal arity against the
sequence length; in particular `_pair` on a 3-element sequence yields a
3-tuple rather than an error. -/
theorem claim_C10 :
    (∀ (env : Env) (tx : TxState) (v : Var), v.hasUnpackVarSequence = true →
      classifyCall env .single [v] [] tx =
        .ok (.tupleVr v.unpackVarSequence (optionsGuards [v, v] []), tx)) ∧
    (∀ (env : Env) (tx : TxState) (v : Var), v.hasUnpackVarSequence = true →
      classifyCall env .pair [v] [] tx =
        .ok (.tupleVr v.unpackVarSequence (optionsGuards [v, v] []), tx)) ∧
    (∀ (env : Env) (tx : TxState) (v : Var), v.hasUnpackVarSequence = true →
      classifyCall env .triple [v] [] tx =
        .ok (.tupleVr v.unpackVarSequence (optionsGuards [v, v] []), tx)) ∧
    (∀ (env : Env) (tx : TxState) (v : Var), v.hasUnpackVarSequence = true →
      classifyCall env .quadruple [v] [] tx =
        .ok (.tupleVr v.unpackVarSequence (optionsGuards [v, v] []), tx)) ∧
    (classifyCall envW .pair
        [Var.tupleVr [Var.const (.int 1) ∅, Var.const (.int 2) ∅,
          Var.const (.int 3) ∅] ∅] [] txW =
      .ok (.tupleVr [Var.const (.int 1) ∅, Var.const (.int 2) ∅,
        Var.const (.int 3) ∅] ∅, txW)) := by
  refine ⟨?_, ?_, ?_, ?_, by decide⟩ <;>
    intro env tx v h
  · rw [classify_single_eq, handleNtuple_unpack 1 [v] [] v h]
  · rw [classify_pair_eq, handleNtuple_unpack 2 [v] [] v h]
  · rw [classify_triple_eq, handleNtuple_unpack 3 [v] [] v h]
  · rw [classify_quadruple_eq, handleNtuple_unpack 4 [v] [] v h]

/-- Claim C10, witness: `_quadruple` on a 1-element list value yields that
single element as a 1-tuple, ignoring the nominal arity. -/
theorem claim_C10_witness :
    classifyCall envW .quadruple [Var.listVr [Var.const (.int 8) ∅] ∅] [] txW =
      .ok (.tupleVr [Var.const (.int 8) ∅]
        (optionsGuards [Var.listVr [Var.const (.int 8) ∅] ∅,
          Var.listVr [Var.const (.int 8) ∅] ∅] []), txW) :=
  claim_C10.2.2.2.1 envW txW (Var.listVr [Var.const (.int 8) ∅] ∅) rfl

/-- Claim C8: the type-predicate shortcuts answer from statically known
type/dtype metadata with no graph node emitted: `is_floating_point` and
`is_complex` on a tensor of known dtype constant-fold from the dtype (the
trace state is unchanged); `is_tensor` answers from the variable kind
(true on tensors, false otherwise), `is_tensor_like` additionally answers
true for user objects carrying a torch-function override; and when the
dtype metadata is not statically known the call falls through to the
generic fallback, which emits one `call_function` graph node and wraps its
proxy. -/
theorem claim_C8 :
    (∀ (env : Env) (tx : TxState) (d : DtypeV) (dev : String)
        (sz : Option (List Nat)) (p : Nat) (g : GuardSet),
      classifyCall env .isFloatingPoint [.tensor (some d) dev sz p g] [] tx =
        .ok (.const (.bool d.isFloating)
          (optionsGuards [Var.tensor (some d) dev sz p g] []), tx)) ∧
    (∀ (env : Env) (tx : TxState) (d : DtypeV) (dev : String)
        (sz : Option (List Nat)) (p : Nat) (g : GuardSet),
      classifyCall env .isComplex [.tensor (some d) dev sz p g] [] tx =
        .ok (.const (.bool d.isComplexD)
          (optionsGuards [Var.tensor (some d) dev sz p g] []), tx)) ∧
    (∀ (env : Env) (tx : TxState) (dt : Option DtypeV) (dev : String)
        (sz : Option (List Nat)) (p : Nat) (g : GuardSet),
      classifyCall env .isTensor [.tensor dt dev sz p g] [] tx =
        .ok (.const (.bool true)
          (optionsGuards [Var.tensor dt dev sz p g] []), tx)) ∧
    (∀ (env : Env) (tx : TxState) (v : PyVal) (g : GuardSet),
      classifyCall env .isTensor [.const v g] [] tx =
        .ok (.const (.bool false) (optionsGuards [Var.const v g] []), tx)) ∧
    (∀ (env : Env) (tx : TxState) (g : GuardSet),
      classifyCall env .isTensorLike [.userObj true g] [] tx =
        .ok (.const (.bool true) (optionsGuards [Var.userObj true g] []), tx)) ∧
    (∀ (env : Env) (tx : TxState) (g : GuardSet),
      classifyCall env .isTensor [.userObj true g] [] tx =
        .ok (.const (.bool false) (optionsGuards [Var.userObj true g] []), tx)) ∧
    (∀ (env : Env) (tx : TxState) (dev : String) (sz : Option (List Nat))
        (p : Nat) (g : GuardSet),
      classifyCall env .isFloatingPoint [.tensor Option.none dev sz p g] [] tx =
        (let op := tx.output.createProxyFn (.torchFn .isFloatingPoint)
            [.proxy p] []
         let vw := wrapFxProxy (env.fakeTupleArity .isFloatingPoint) op.2
            (optionsGuards [Var.tensor Option.none dev sz p g] []) op.1
         .ok (vw.1, { tx with output := vw.2 }))) ∧
    (∀ (tx : TxState) (dev : String) (sz : Option (List Nat)) (p : Nat)
        (g : GuardSet),
      classifyCall envW .isFloatingPoint [.tensor Option.none dev sz p g] [] tx =
        .ok (.tensor Option.none "fake" Option.none tx.output.graph.nextProxy
            (optionsGuards [Var.tensor Option.none dev sz p g] []),
          { tx with
              output :=
                { tx.output with
                    graph := ⟨tx.output.graph.nodes ++
                      [.callFunction tx.output.graph.nextProxy
                        (.torchFn .isFloatingPoint) [.proxy p] []],
                      tx.output.graph.nextProxy + 1⟩
                    timestamp := tx.output.timestamp + 1 } })) := by
  refine ⟨fun _ _ _ _ _ _ _ => rfl, fun _ _ _ _ _ _ _ => rfl,
    fun _ _ _ _ _ _ _ => rfl, fun _ _ _ _ => rfl, fun _ _ _ => rfl,
    fun _ _ _ => rfl, ?_, fun _ _ _ _ _ => rfl⟩
  intro env tx dev sz p g
  obtain ⟨ds, ge, hn, ev, cu, fa, ru, itf, nw, pr, ts, cn⟩ := env
  cases ds <;> cases hn <;> rfl

/-- Claim C9, counterexample: a call to `cudnn.is_acceptable` with two
positional tensor arguments plus a `tensor` keyword supplies three inputs —
wrong arity for a one-input predicate — yet it is not a fatal assertion
failure: the arity assertion only requires one positional argument or the
presence of the `tensor` keyword, so the call passes it and constant-folds
from the first positional argument. -/
theorem claim_C9_counterexample :
    classifyCall envW .cudnnIsAcceptable
      [Var.tensor (some .float32) "cuda" Option.none 1 ∅,
       Var.tensor (some .float32) "cuda" Option.none 2 ∅]
      [("tensor", Var.tensor (some .float32) "cuda" Option.none 3 ∅)] txW =
      .ok (.const (.bool true) ∅, txW) := by decide

/-- Claim C9, amended: a call to `cudnn.is_acceptable` with exactly one
tensor argument (positional, or passed as the `tensor` keyword) classifies
as a ConstantFold whose boolean depends only on the tensor's dtype and
device (through the ambient cudnn acceptability of the environment), never
an emitted graph node; a call supplying no input in either accepted
position, or a positional count other than one without the `tensor`
keyword, and a call whose selected argument is not a tensor, are fatal
assertion failures rather than Unsupported — but extra positional
arguments alongside the `tensor` keyword pass the arity assertion and the
first positional argument is used. -/
theorem claim_C9_amended :
    (∀ (env : Env) (tx : TxState) (dt : Option DtypeV) (dev : String)
        (sz : Option (List Nat)) (p : Nat) (g : GuardSet),
      classifyCall env .cudnnIsAcceptable [.tensor dt dev sz p g] [] tx =
        .ok (.const (.bool (env.cudnnAcceptable dt dev))
          (optionsGuards [Var.tensor dt dev sz p g] []), tx)) ∧
    (∀ (env : Env) (tx : TxState) (dt : Option DtypeV) (dev : String)
        (sz : Option (List Nat)) (p : Nat) (g : GuardSet),
      classifyCall env .cudnnIsAcceptable []
          [("tensor", .tensor dt dev sz p g)] tx =
        .ok (.const (.bool (env.cudnnAcceptable dt dev))
          (optionsGuards [] [("tensor", Var.tensor dt dev sz p g)]), tx)) ∧
    (∀ (env : Env) (tx : TxState),
      classifyCall env .cudnnIsAcceptable [] [] tx =
        .error (.fatal "Expect 1 input to cudnn.is_acceptable")) ∧
    (∀ (env : Env) (tx : TxState) (a b : Var) (dt1 dt2 : Option DtypeV)
        (dev1 dev2 : String) (sz1 sz2 : Option (List Nat)) (p1 p2 : Nat)
        (g1 g2 : GuardSet), a = .tensor dt1 dev1 sz1 p1 g1 →
      b = .tensor dt2 dev2 sz2 p2 g2 →
      classifyCall env .cudnnIsAcceptable [a, b] [] tx =
        .error (.fatal "Expect 1 input to cudnn.is_acceptable")) ∧
    (∀ (env : Env) (tx : TxState) (v : PyVal) (g : GuardSet),
      classifyCall env .cudnnIsAcceptable [.const v g] [] tx =
        .error (.fatal "Expect input to cudnn.is_acceptable to be a tensor")) := by
  refine ⟨?_, ?_, ?_, ?_, ?_⟩
  · intro env tx dt dev sz p g
    obtain ⟨ds, ge, hn, ev, cu, fa, ru, itf, nw, pr, ts, cn⟩ := env
    cases ds <;> rfl
  · intro env tx dt dev sz p g
    obtain ⟨ds, ge, hn, ev, cu, fa, ru, itf, nw, pr, ts, cn⟩ := env
    cases ds <;> rfl
  · intro env tx
    obtain ⟨ds, ge, hn, ev, cu, fa, ru, itf, nw, pr, ts, cn⟩ := env
    cases ds <;> rfl
  · intro env tx a b dt1 dt2 dev1 dev2 sz1 sz2 p1 p2 g1 g2 ha hb
    subst ha hb
    obtain ⟨ds, ge, hn, ev, cu, fa, ru, itf, nw, pr, ts, cn⟩ := env
    cases ds <;> rfl
  · intro env tx v g
    obtain ⟨ds, ge, hn, ev, cu, fa, ru, itf, nw, pr, ts, cn⟩ := env
    cases ds <;> rfl

/-- Claim C9, witness for the amended theorem: the wrong-arity conjunct at
a concrete pair of tensor inputs is a fatal assertion failure. -/
theorem claim_C9_witness :
    classifyCall envW .cudnnIsAcceptable
      [Var.tensor (some .float32) "cuda" Option.none 1 ∅,
       Var.tensor (some .float32) "cuda" Option.none 2 ∅] [] txW =
      .error (.fatal "Expect 1 input to cudnn.is_acceptable") :=
  claim_C9_amended.2.2.2.1 envW txW _ _ (some .float32) (some .float32)
    "cuda" "cuda" Option.none Option.none 1 2 ∅ ∅ rfl rfl

theorem canFold_remap_id (op : Op) (h : op.canConstantFoldThrough = true) :
    remapTensorDunder op = op := by
  cases op <;> first | rfl | exact absurd h (by decide)

theorem canFold_config_none (op : Op) (h : op.canConstantFoldThrough = true) :
    configConstantFunctions op = Option.none := by
  cases op <;> first | rfl | exact absurd h (by decide)

/-- Claim C3: whenever every argument is constant or an unspecialized
scalar and the operator is fold-eligible (in the explicit constant-fold
allow-list, or declared in the scalar-math module), classification
constant-folds: it returns the concrete evaluation of the operator on the
arguments' constant values (the trace state untouched), and if that
concrete evaluation raises, the exception propagates as a fatal error — it
is not converted into Unsupported or swallowed. -/
theorem claim_C3 (env : Env) (op : Op) (args : List Var)
    (kwargs : List (String × Var)) (tx : TxState) (vals : List PyVal)
    (kvals : List (String × PyVal))
    (hfold : op.canConstantFoldThrough = true)
    (hconst : checkConstantArgs args kwargs = true ∨
      checkUnspecPythonArgs args kwargs = true)
    (hv : (args.map specializeVar).mapM Var.asPythonConstant = .ok vals)
    (hkv : (kwargs.map (fun p => (p.1, specializeVar p.2))).mapM
      (fun p => (p.2.asPythonConstant).map (fun v => (p.1, v))) = .ok kvals) :
    classifyCall env op args kwargs tx =
      match env.evalConcrete op vals kvals with
      | .ok r => .ok (.const r (optionsGuards args kwargs), tx)
      | .error e => .error (.fatal e) := by
  have hrm : remapTensorDunder op = op := canFold_remap_id op hfold
  have hcfg : configConstantFunctions op = Option.none :=
    canFold_config_none op hfold
  unfold classifyCall
  rw [hrm]
  simp only [callTorchAux]
  rw [hcfg]
  simp only [callTorchFold]
  rw [if_pos ⟨hfold, by rcases hconst with h | h <;> simp [h]⟩]
  simp only [hv, hkv, Except.bind, bind]

/-- Claim C3, witness: the scalar-math operator `add2` on a constant and an
unspecialized scalar constant-folds to their concrete sum; on a string
argument its concrete evaluation raises and the error is fatal. -/
theorem claim_C3_witness :
    classifyCall envW (.other "math" "add2")
      [Var.const (.int 2) ∅, Var.unspec (.int 3) 9 ∅] [] txW =
      .ok (.const (.int 5)
        (optionsGuards [Var.const (.int 2) ∅, Var.unspec (.int 3) 9 ∅] []),
        txW) ∧
    classifyCall envW (.other "math" "add2") [Var.const (.str "x") ∅] [] txW =
      .error (.fatal "TypeError") :=
  ⟨claim_C3 envW (.other "math" "add2")
      [Var.const (.int 2) ∅, Var.unspec (.int 3) 9 ∅] [] txW
      [.int 2, .int 3] [] rfl (Or.inr rfl) rfl rfl,
    claim_C3 envW (.other "math" "add2") [Var.const (.str "x") ∅] [] txW
      [.str "x"] [] rfl (Or.inl rfl) rfl rfl⟩

/-- Claim C6: with dynamic-shape tracing disabled, classification of
`nonzero`, `unique`, `unique_consecutive` and `nms` is Unsupported with the
reason string `dynamic shapes: <operator name>` for all arguments;
single-argument `where` likewise; `arange` and `repeat_interleave` likewise
whenever the bound-argument check of `is_dynamic_shapes` reports a
non-constant bound; and in particular `arange(start, n)` with a constant
start and a dynamic-scalar `n` yields Unsupported with reason
`dynamic shapes: arange`. -/
theorem claim_C6 :
    (∀ (env : Env) (args : List Var) (kwargs : List (String × Var))
        (tx : TxState), env.dynamicShapes = false →
      classifyCall env .nonzero args kwargs tx =
        .error (.unsupported "dynamic shapes: nonzero")) ∧
    (∀ (env : Env) (args : List Var) (kwargs : List (String × Var))
        (tx : TxState), env.dynamicShapes = false →
      classifyCall env .unique args kwargs tx =
        .error (.unsupported "dynamic shapes: unique")) ∧
    (∀ (env : Env) (args : List Var) (kwargs : List (String × Var))
        (tx : TxState), env.dynamicShapes = false →
      classifyCall env .uniqueConsecutive args kwargs tx =
        .error (.unsupported "dynamic shapes: unique_consecutive")) ∧
    (∀ (env : Env) (args : List Var) (kwargs : List (String × Var))
        (tx : TxState), env.dynamicShapes = false →
      classifyCall env .nmsOp args kwargs tx =
        .error (.unsupported "dynamic shapes: nms")) ∧
    (∀ (env : Env) (v : Var) (tx : TxState), env.dynamicShapes = false →
      classifyCall env .whereOp [v] [] tx =
        .error (.unsupported "dynamic shapes: where")) ∧
    (∀ (env : Env) (args : List Var) (kwargs : List (String × Var))
        (tx : TxState), env.dynamicShapes = false →
      isDynamicShapes .arange args kwargs = .ok true →
      classifyCall env .arange args kwargs tx =
        .error (.unsupported "dynamic shapes: arange")) ∧
    (∀ (env : Env) (args : List Var) (kwargs : List (String × Var))
        (tx : TxState), env.dynamicShapes = false →
      isDynamicShapes .repeatInterleave args kwargs = .ok true →
      classifyCall env .repeatInterleave args kwargs tx =
        .error (.unsupported "dynamic shapes: repeat_interleave")) ∧
    (∀ (env : Env) (tx : TxState) (v : PyVal) (g1 : GuardSet) (p : Nat)
        (g2 : GuardSet), env.dynamicShapes = false →
      classifyCall env .arange [.const v g1, .dynShape p g2] [] tx =
        .error (.unsupported "dynamic shapes: arange")) := by
  refine ⟨?_, ?_, ?_, ?_, ?_, ?_, ?_, ?_⟩
  · intro env args kwargs tx henv
    obtain ⟨ds, ge, hn, ev, cu, fa, ru, itf, nw, pr, ts, cn⟩ := env
    have hds : ds = false := henv
    subst hds
    rfl
  · intro env args kwargs tx henv
    obtain ⟨ds, ge, hn, ev, cu, fa, ru, itf, nw, pr, ts, cn⟩ := env
    have hds : ds = false := henv
    subst hds
    rfl
  · intro env args kwargs tx henv
    obtain ⟨ds, ge, hn, ev, cu, fa, ru, itf, nw, pr, ts, cn⟩ := env
    have hds : ds = false := henv
    subst hds
    rfl
  · intro env args kwargs tx henv
    obtain ⟨ds, ge, hn, ev, cu, fa, ru, itf, nw, pr, ts, cn⟩ := env
    have hds : ds = false := henv
    subst hds
    rfl
  · intro env v tx henv
    obtain ⟨ds, ge, hn, ev, cu, fa, ru, itf, nw, pr, ts, cn⟩ := env
    have hds : ds = false := henv
    subst hds
    rfl
  · intro env args kwargs tx henv hdyn
    obtain ⟨ds, ge, hn, ev, cu, fa, ru, itf, nw, pr, ts, cn⟩ := env
    have hds : ds = false := henv
    subst hds
    have key : classifyCall
        ⟨false, ge, hn, ev, cu, fa, ru, itf, nw, pr, ts, cn⟩ .arange args
        kwargs tx =
        (do
          let dyn ← isDynamicShapes .arange args kwargs
          if dyn then
            Except.error
              (Err.unsupported ("dynamic shapes: " ++ Op.name .arange))
          else
            callTorchPost
              ⟨false, ge, hn, ev, cu, fa, ru, itf, nw, pr, ts, cn⟩
              (fun v a k t =>
                callTorchAux
                  ⟨false, ge, hn, ev, cu, fa, ru, itf, nw, pr, ts, cn⟩
                  1 v a k t)
              .arange args kwargs tx (optionsGuards args kwargs)) := rfl
    rw [key, hdyn]
    rfl
  · intro env args kwargs tx henv hdyn
    obtain ⟨ds, ge, hn, ev, cu, fa, ru, itf, nw, pr, ts, cn⟩ := env
    have hds : ds = false := henv
    subst hds
    have key : classifyCall
        ⟨false, ge, hn, ev, cu, fa, ru, itf, nw, pr, ts, cn⟩
        .repeatInterleave args kwargs tx =
        (do
          let dyn ← isDynamicShapes .repeatInterleave args kwargs
          if dyn then
            Except.error
              (Err.unsupported ("dynamic shapes: " ++ Op.name .repeatInterleave))
          else
            callTorchPost
              ⟨false, ge, hn, ev, cu, fa, ru, itf, nw, pr, ts, cn⟩
              (fun v a k t =>
                callTorchAux
                  ⟨false, ge, hn, ev, cu, fa, ru, itf, nw, pr, ts, cn⟩
                  1 v a k t)
              .repeatInterleave args kwargs tx
              (optionsGuards args kwargs)) := rfl
    rw [key, hdyn]
    rfl
  · intro env tx v g1 p g2 henv
    obtain ⟨ds, ge, hn, ev, cu, fa, ru, itf, nw, pr, ts, cn⟩ := env
    have hds : ds = false := henv
    subst hds
    rfl

/-- Claim C6, witness: `arange(0, n)` with `n` a dynamic scalar under
disabled dynamic shapes is Unsupported with reason
`dynamic shapes: arange`, and `nonzero` on a tensor likewise. -/
theorem claim_C6_witness :
    classifyCall envW .arange [Var.const (.int 0) ∅, Var.dynShape 5 ∅] []
        txW = .error (.unsupported "dynamic shapes: arange") ∧
    classifyCall envW .nonzero [Var.tensor Option.none "cpu" Option.none 1 ∅]
        [] txW = .error (.unsupported "dynamic shapes: nonzero") :=
  ⟨claim_C6.2.2.2.2.2.2.2 envW txW (.int 0) ∅ 5 ∅ rfl,
   claim_C6.1 envW [Var.tensor Option.none "cpu" Option.none 1 ∅] [] txW rfl⟩

/-- Claim C5: `addcdiv` with exactly three positional arguments and only
the `value` keyword emits no addcdiv node; instead classification emits
exactly three chained call nodes — divide the second by the third argument,
multiply by `value`, add the first argument — and concrete evaluation of
that decomposed fragment (over exact rationals) equals the native addcdiv
operator on the same numeric inputs. -/
theorem claim_C5 (qv a b c : ℚ) :
    (match classifyCall envW .addcdiv
        [Var.tensor Option.none "cpu" Option.none 10 ∅,
         Var.tensor Option.none "cpu" Option.none 11 ∅,
         Var.tensor Option.none "cpu" Option.none 12 ∅]
        [("value", Var.const (.float qv) ∅)] txW with
      | .ok (_, tx2) => some tx2.output.graph.nodes
      | .error _ => Option.none) =
      some
        [.callFunction 0 (.torchFn .divOp) [.proxy 11, .proxy 12] [],
         .callFunction 1 (.torchFn .mulOp) [.proxy 0, .constV (.float qv)] [],
         .callFunction 2 (.torchFn .addOp) [.proxy 10, .proxy 1] []] ∧
    hasCallTo
        [.callFunction 0 (.torchFn .divOp) [.proxy 11, .proxy 12] [],
         .callFunction 1 (.torchFn .mulOp) [.proxy 0, .constV (.float qv)] [],
         .callFunction 2 (.torchFn .addOp) [.proxy 10, .proxy 1] []]
        .addcdiv = false ∧
    runGraph
        [.callFunction 0 (.torchFn .divOp) [.proxy 11, .proxy 12] [],
         .callFunction 1 (.torchFn .mulOp) [.proxy 0, .constV (.float qv)] [],
         .callFunction 2 (.torchFn .addOp) [.proxy 10, .proxy 1] []]
        (fun n =>
          if n = 10 then some a
          else if n = 11 then some b
          else if n = 12 then some c
          else Option.none) 2 =
      some (addcdivConcrete a b c qv) := by
  refine ⟨rfl, rfl, ?_⟩
  show some (a + b / c * qv) = some (addcdivConcrete a b c qv)
  show some (a + b / c * qv) = some (a + qv * (b / c))
  exact congrArg some (by ring)

theorem any_key_set (tx : TxState) (nm : String) (v : Var) (nm' : String)
    (h : tx.symbolicLocals.any (fun p => p.1 == nm') = true) :
    (tx.setSymbolicLocal nm v).symbolicLocals.any (fun p => p.1 == nm') = true := by
  unfold TxState.setSymbolicLocal
  by_cases hany : tx.symbolicLocals.any (fun p => p.1 == nm) = true
  · rw [if_pos hany]
    rcases List.any_eq_true.mp h with ⟨p, hp, hpe⟩
    refine List.any_eq_true.mpr
      ⟨if p.1 == nm then (nm, v) else p, List.mem_map_of_mem _ hp, ?_⟩
    by_cases hpn : (p.1 == nm) = true
    · have h1 : p.1 = nm := beq_iff_eq.mp hpn
      have h2 : p.1 = nm' := beq_iff_eq.mp hpe
      simp [hpn, ← h1, h2]
    · simp only [hpn]
      simpa using hpe
  · rw [if_neg hany]
    simp only [List.any_append]
    rw [h]
    rfl

theorem find?_map_keep (l : List (String × Var)) (nm nm' : String) (v : Var)
    (hne : nm' ≠ nm) :
    (l.map (fun p => if p.1 == nm then (nm, v) else p)).find?
        (fun p => p.1 == nm') =
      l.find? (fun p => p.1 == nm') := by
  have hne2 : nm ≠ nm' := fun e => hne e.symm
  have hb1 : ((nm : String) == nm') = false := beq_eq_false_iff_ne.mpr hne2
  induction l with
  | nil => rfl
  | cons hd t ih =>
      rw [List.map_cons]
      by_cases hh : (hd.1 == nm) = true
      · have h1 : hd.1 = nm := beq_iff_eq.mp hh
        have hb2 : (hd.1 == nm') = false := by rw [h1]; exact hb1
        rw [if_pos hh]
        simp only [List.find?, hb1, hb2]
        exact ih
      · rw [if_neg hh]
        cases hq : (hd.1 == nm') with
        | true => simp only [List.find?, hq]
        | false =>
            simp only [List.find?, hq]
            exact ih

theorem lookupLocal_set_ne (tx : TxState) (nm nm' : String) (v : Var)
    (hne : nm' ≠ nm) :
    lookupLocal (tx.setSymbolicLocal nm v) nm' = lookupLocal tx nm' := by
  unfold lookupLocal TxState.setSymbolicLocal
  by_cases hany : tx.symbolicLocals.any (fun p => p.1 == nm) = true
  · rw [if_pos hany]
    simp only []
    rw [find?_map_keep _ _ _ _ hne]
  · rw [if_neg hany]
    simp only []
    rw [List.find?_append]
    have hnone : List.find? (fun p => p.1 == nm') [(nm, v)] = Option.none := by
      simp [List.find?, beq_eq_false_iff_ne.mpr (fun e => hne e.symm)]
    rw [hnone]
    cases List.find? (fun p => p.1 == nm') tx.symbolicLocals <;> rfl

/-- Evaluating the out-rebinding loop on a two-name, two-item instance where
both names are bound at their turn. -/
theorem rebindOutNames_pair (tx : TxState) (nm1 nm2 : String) (v1 v2 : Var)
    (h1 : tx.symbolicLocals.any (fun p => p.1 == nm1) = true)
    (h2 : (tx.setSymbolicLocal nm1 v1).symbolicLocals.any
      (fun p => p.1 == nm2) = true) :
    rebindOutNames tx [some nm1, some nm2] [v1, v2] =
      .ok ((tx.setSymbolicLocal nm1 v1).setSymbolicLocal nm2 v2) := by
  show (if tx.symbolicLocals.any (fun p => p.1 == nm1) then
      rebindOutNames (tx.setSymbolicLocal nm1 v1) [some nm2] [v2]
    else Except.error (Err.fatal "assert name in tx.symbolic_locals")) =
      Except.ok ((tx.setSymbolicLocal nm1 v1).setSymbolicLocal nm2 v2)
  rw [if_pos h1]
  show (if (tx.setSymbolicLocal nm1 v1).symbolicLocals.any
      (fun p => p.1 == nm2) then
      Except.ok ((tx.setSymbolicLocal nm1 v1).setSymbolicLocal nm2 v2)
    else Except.error (Err.fatal "assert name in tx.symbolic_locals")) =
      Except.ok ((tx.setSymbolicLocal nm1 v1).setSymbolicLocal nm2 v2)
  rw [if_pos h2]

/-- Claim C4, counterexample: an output-arity mismatch between the `out=`
argument's shape and the result's shape is NOT the Unsupported outcome —
`torch.sigmoid` (single-tensor result) called with a two-element tuple
`out=` hits the `assert isinstance(kwargs["out"], TensorVariable)` at
source line 497, a fatal assertion failure. -/
theorem claim_C4_counterexample :
    (match classifyCall envW (.other "torch" "sigmoid")
        [.tensor Option.none "cpu" Option.none 8 ∅]
        [("out", .tupleVr [.tensor Option.none "cpu" Option.none 3 ∅,
          .tensor Option.none "cpu" Option.none 4 ∅] ∅)] txW with
     | .error (.unsupported _) => true
     | _ => false) = false ∧
    classifyCall envW (.other "torch" "sigmoid")
        [.tensor Option.none "cpu" Option.none 8 ∅]
        [("out", .tupleVr [.tensor Option.none "cpu" Option.none 3 ∅,
          .tensor Option.none "cpu" Option.none 4 ∅] ∅)] txW =
      .error (.fatal "assert isinstance(kwargs[out], TensorVariable)") := by
  exact ⟨by decide, by decide⟩

/-- Claim C4 (amended): a generically traced call with an `out=` keyword
rebinds each symbolic-local name of the out target(s) to the freshly
produced result value(s): a single-tensor result with a tensor target whose
name is found rebinds that name (first conjunct), and a tuple result (as
for `torch.sort`) with a two-tensor tuple target rebinds both names to the
result items in index order (second conjunct); but every shape or arity
mismatch is a FATAL assertion failure, not Unsupported: a tuple `out=`
against a tensor result (third conjunct), a tensor `out=` against a tuple
result (fourth conjunct), an `out=` tuple longer than the result tuple
(fifth conjunct, an IndexError), and an out target not bound in the
symbolic-locals table (sixth conjunct). -/
theorem claim_C4_amended :
    (∀ (tx : TxState) (d1 d3 : Option DtypeV) (dev1 dev3 : String)
        (sz1 sz3 : Option (List Nat)) (p1 p3 : Nat) (g1 g3 : GuardSet)
        (nm : String),
      findSymbolicLocalsName tx (Var.tensor d3 dev3 sz3 p3 g3) = some nm →
      ∃ tx2,
        classifyCall envW (.other "torch" "sigmoid")
            [.tensor d1 dev1 sz1 p1 g1]
            [("out", .tensor d3 dev3 sz3 p3 g3)] tx =
          .ok (.tensor Option.none "fake" Option.none
              tx.output.graph.nextProxy
              (optionsGuards [Var.tensor d1 dev1 sz1 p1 g1]
                [("out", Var.tensor d3 dev3 sz3 p3 g3)]), tx2) ∧
        lookupLocal tx2 nm =
          some (.tensor Option.none "fake" Option.none
            tx.output.graph.nextProxy
            (optionsGuards [Var.tensor d1 dev1 sz1 p1 g1]
              [("out", Var.tensor d3 dev3 sz3 p3 g3)]))) ∧
    (∀ (tx : TxState) (d1 d3 d4 : Option DtypeV) (dev1 dev3 dev4 : String)
        (sz1 sz3 sz4 : Option (List Nat)) (p1 p3 p4 : Nat)
        (g1 g3 g4 go : GuardSet) (nm1 nm2 : String),
      findSymbolicLocalsName tx (Var.tensor d3 dev3 sz3 p3 g3) = some nm1 →
      findSymbolicLocalsName tx (Var.tensor d4 dev4 sz4 p4 g4) = some nm2 →
      nm1 ≠ nm2 →
      ∃ tx2,
        classifyCall envW (.other "torch" "sort")
            [.tensor d1 dev1 sz1 p1 g1]
            [("out", .tupleVr [.tensor d3 dev3 sz3 p3 g3,
              .tensor d4 dev4 sz4 p4 g4] go)] tx =
          .ok (.tupleVr
              [.tensor Option.none "fake" Option.none
                 (tx.output.graph.nextProxy + 1)
                 (optionsGuards [Var.tensor d1 dev1 sz1 p1 g1]
                   [("out", Var.tupleVr [Var.tensor d3 dev3 sz3 p3 g3,
                     Var.tensor d4 dev4 sz4 p4 g4] go)]),
               .tensor Option.none "fake" Option.none
                 (tx.output.graph.nextProxy + 2)
                 (optionsGuards [Var.tensor d1 dev1 sz1 p1 g1]
                   [("out", Var.tupleVr [Var.tensor d3 dev3 sz3 p3 g3,
                     Var.tensor d4 dev4 sz4 p4 g4] go)])]
              (optionsGuards [Var.tensor d1 dev1 sz1 p1 g1]
                [("out", Var.tupleVr [Var.tensor d3 dev3 sz3 p3 g3,
                  Var.tensor d4 dev4 sz4 p4 g4] go)]), tx2) ∧
        lookupLocal tx2 nm1 =
          some (.tensor Option.none "fake" Option.none
            (tx.output.graph.nextProxy + 1)
            (optionsGuards [Var.tensor d1 dev1 sz1 p1 g1]
              [("out", Var.tupleVr [Var.tensor d3 dev3 sz3 p3 g3,
                Var.tensor d4 dev4 sz4 p4 g4] go)])) ∧
        lookupLocal tx2 nm2 =
          some (.tensor Option.none "fake" Option.none
            (tx.output.graph.nextProxy + 2)
            (optionsGuards [Var.tensor d1 dev1 sz1 p1 g1]
              [("out", Var.tupleVr [Var.tensor d3 dev3 sz3 p3 g3,
                Var.tensor d4 dev4 sz4 p4 g4] go)]))) ∧
    classifyCall envW (.other "torch" "sigmoid")
        [.tensor Option.none "cpu" Option.none 8 ∅]
        [("out", .tupleVr [.tensor Option.none "cpu" Option.none 3 ∅,
          .tensor Option.none "cpu" Option.none 4 ∅] ∅)] txW =
      .error (.fatal "assert isinstance(kwargs[out], TensorVariable)") ∧
    classifyCall envW (.other "torch" "sort")
        [.tensor Option.none "cpu" Option.none 8 ∅]
        [("out", .tensor Option.none "cpu" Option.none 3 ∅)] txW =
      .error (.fatal "assert isinstance(kwargs[out], TupleVariable)") ∧
    classifyCall envW (.other "torch" "sort")
        [.tensor Option.none "cpu" Option.none 8 ∅]
        [("out", .tupleVr [.tensor Option.none "cpu" Option.none 3 ∅,
          .tensor Option.none "cpu" Option.none 4 ∅,
          .tensor Option.none "cpu" Option.none 5 ∅] ∅)] txE =
      .error (.fatal "IndexError: tuple index out of range") ∧
    classifyCall envW (.other "torch" "sigmoid")
        [.tensor Option.none "cpu" Option.none 8 ∅]
        [("out", .tensor Option.none "cpu" Option.none 3 ∅)] txW =
      .error (.fatal "assert name in tx.symbolic_locals") := by
  refine ⟨?_, ?_, by decide, by decide, by decide, by decide⟩
  · intro tx d1 d3 dev1 dev3 sz1 sz3 p1 p3 g1 g3 nm hfind
    have key : classifyCall envW (.other "torch" "sigmoid")
        [.tensor d1 dev1 sz1 p1 g1]
        [("out", .tensor d3 dev3 sz3 p3 g3)] tx =
        (match findSymbolicLocalsName
            ({ tx with output := { tx.output with
                graph := ⟨tx.output.graph.nodes ++
                  [.callFunction tx.output.graph.nextProxy
                    (.torchFn (.other "torch" "sigmoid"))
                    [.proxy p1] [("out", .proxy p3)]],
                  tx.output.graph.nextProxy + 1⟩
                timestamp := tx.output.timestamp + 1 } } : TxState)
            (Var.tensor d3 dev3 sz3 p3 g3) with
         | some nm1 =>
             if ({ tx with output := { tx.output with
                 graph := ⟨tx.output.graph.nodes ++
                   [.callFunction tx.output.graph.nextProxy
                     (.torchFn (.other "torch" "sigmoid"))
                     [.proxy p1] [("out", .proxy p3)]],
                   tx.output.graph.nextProxy + 1⟩
                 timestamp := tx.output.timestamp + 1 } } : TxState)
                 |>.symbolicLocals.any (fun q => q.1 == nm1) then
               .ok (Var.tensor Option.none "fake" Option.none
                   tx.output.graph.nextProxy
                   (optionsGuards [Var.tensor d1 dev1 sz1 p1 g1]
                     [("out", Var.tensor d3 dev3 sz3 p3 g3)]),
                 ({ tx with output := { tx.output with
                     graph := ⟨tx.output.graph.nodes ++
                       [.callFunction tx.output.graph.nextProxy
                         (.torchFn (.other "torch" "sigmoid"))
                         [.proxy p1] [("out", .proxy p3)]],
                       tx.output.graph.nextProxy + 1⟩
                     timestamp := tx.output.timestamp + 1 } } : TxState)
                   |>.setSymbolicLocal nm1
                     (Var.tensor Option.none "fake" Option.none
                       tx.output.graph.nextProxy
                       (optionsGuards [Var.tensor d1 dev1 sz1 p1 g1]
                         [("out", Var.tensor d3 dev3 sz3 p3 g3)])))
             else .error (.fatal "assert name in tx.symbolic_locals")
         | Option.none =>
             .error (.fatal "assert name in tx.symbolic_locals")) := rfl
    have hfind2 : findSymbolicLocalsName
        ({ tx with output := { tx.output with
            graph := ⟨tx.output.graph.nodes ++
              [.callFunction tx.output.graph.nextProxy
                (.torchFn (.other "torch" "sigmoid"))
                [.proxy p1] [("out", .proxy p3)]],
              tx.output.graph.nextProxy + 1⟩
            timestamp := tx.output.timestamp + 1 } } : TxState)
        (Var.tensor d3 dev3 sz3 p3 g3) = some nm := hfind
    rw [key]
    simp only [hfind2]
    rw [if_pos (findSymbolicLocalsName_any hfind2)]
    exact ⟨_, rfl, lookupLocal_set _ nm _⟩
  · intro tx d1 d3 d4 dev1 dev3 dev4 sz1 sz3 sz4 p1 p3 p4 g1 g3 g4 go
      nm1 nm2 hf1 hf2 hne
    have key : classifyCall envW (.other "torch" "sort")
        [.tensor d1 dev1 sz1 p1 g1]
        [("out", .tupleVr [.tensor d3 dev3 sz3 p3 g3,
          .tensor d4 dev4 sz4 p4 g4] go)] tx =
      Bind.bind (rebindOutNames
          ({ tx with output := { tx.output with
              graph := ⟨tx.output.graph.nodes ++
                [.callFunction tx.output.graph.nextProxy
                  (.torchFn (.other "torch" "sort"))
                  [.proxy p1] [("out", .tup [.proxy p3, .proxy p4])]],
                tx.output.graph.nextProxy + 1 + 2⟩
              timestamp := tx.output.timestamp + 1 } } : TxState)
          [findSymbolicLocalsName
              ({ tx with output := { tx.output with
                  graph := ⟨tx.output.graph.nodes ++
                    [.callFunction tx.output.graph.nextProxy
                      (.torchFn (.other "torch" "sort"))
                      [.proxy p1] [("out", .tup [.proxy p3, .proxy p4])]],
                    tx.output.graph.nextProxy + 1 + 2⟩
                  timestamp := tx.output.timestamp + 1 } } : TxState)
              (Var.tensor d3 dev3 sz3 p3 g3),
           findSymbolicLocalsName
              ({ tx with output := { tx.output with
                  graph := ⟨tx.output.graph.nodes ++
                    [.callFunction tx.output.graph.nextProxy
                      (.torchFn (.other "torch" "sort"))
                      [.proxy p1] [("out", .tup [.proxy p3, .proxy p4])]],
                    tx.output.graph.nextProxy + 1 + 2⟩
                  timestamp := tx.output.timestamp + 1 } } : TxState)
              (Var.tensor d4 dev4 sz4 p4 g4)]
          [Var.tensor Option.none "fake" Option.none
             (tx.output.graph.nextProxy + 1 + 0)
             (optionsGuards [Var.tensor d1 dev1 sz1 p1 g1]
               [("out", Var.tupleVr [Var.tensor d3 dev3 sz3 p3 g3,
                 Var.tensor d4 dev4 sz4 p4 g4] go)]),
           Var.tensor Option.none "fake" Option.none
             (tx.output.graph.nextProxy + 1 + 1)
             (optionsGuards [Var.tensor d1 dev1 sz1 p1 g1]
               [("out", Var.tupleVr [Var.tensor d3 dev3 sz3 p3 g3,
                 Var.tensor d4 dev4 sz4 p4 g4] go)])])
        (fun tx3 =>
          Except.ok (Var.tupleVr
              [Var.tensor Option.none "fake" Option.none
                 (tx.output.graph.nextProxy + 1 + 0)
                 (optionsGuards [Var.tensor d1 dev1 sz1 p1 g1]
                   [("out", Var.tupleVr [Var.tensor d3 dev3 sz3 p3 g3,
                     Var.tensor d4 dev4 sz4 p4 g4] go)]),
               Var.tensor Option.none "fake" Option.none
                 (tx.output.graph.nextProxy + 1 + 1)
                 (optionsGuards [Var.tensor d1 dev1 sz1 p1 g1]
                   [("out", Var.tupleVr [Var.tensor d3 dev3 sz3 p3 g3,
                     Var.tensor d4 dev4 sz4 p4 g4] go)])]
              (optionsGuards [Var.tensor d1 dev1 sz1 p1 g1]
                [("out", Var.tupleVr [Var.tensor d3 dev3 sz3 p3 g3,
                  Var.tensor d4 dev4 sz4 p4 g4] go)]), tx3)) := rfl
    have hf1t : findSymbolicLocalsName
        ({ tx with output := { tx.output with
            graph := ⟨tx.output.graph.nodes ++
              [.callFunction tx.output.graph.nextProxy
                (.torchFn (.other "torch" "sort"))
                [.proxy p1] [("out", .tup [.proxy p3, .proxy p4])]],
              tx.output.graph.nextProxy + 1 + 2⟩
            timestamp := tx.output.timestamp + 1 } } : TxState)
        (Var.tensor d3 dev3 sz3 p3 g3) = some nm1 := hf1
    have hf2t : findSymbolicLocalsName
        ({ tx with output := { tx.output with
            graph := ⟨tx.output.graph.nodes ++
              [.callFunction tx.output.graph.nextProxy
                (.torchFn (.other "torch" "sort"))
                [.proxy p1] [("out", .tup [.proxy p3, .proxy p4])]],
              tx.output.graph.nextProxy + 1 + 2⟩
            timestamp := tx.output.timestamp + 1 } } : TxState)
        (Var.tensor d4 dev4 sz4 p4 g4) = some nm2 := hf2
    rw [key]
    simp only [hf1t, hf2t]
    rw [rebindOutNames_pair _ _ _ _ _ (findSymbolicLocalsName_any hf1t)
      (any_key_set _ _ _ _ (findSymbolicLocalsName_any hf2t))]
    refine ⟨_, rfl, ?_, ?_⟩
    · rw [lookupLocal_set_ne _ _ _ _ hne]
      exact lookupLocal_set _ _ _
    · exact lookupLocal_set _ _ _

/-- Claim C4, witness: the two rebinding conjuncts at concrete states — a
`torch.sigmoid` with a bound single-tensor out target, and a `torch.sort`
with two bound tuple out targets. -/
theorem claim_C4_witness :
    (∃ tx2,
      classifyCall envW (.other "torch" "sigmoid")
          [.tensor Option.none "cpu" Option.none 8 ∅]
          [("out", .tensor Option.none "cpu" Option.none 3 ∅)] txL =
        .ok (.tensor Option.none "fake" Option.none
            txL.output.graph.nextProxy
            (optionsGuards [Var.tensor Option.none "cpu" Option.none 8 ∅]
              [("out", Var.tensor Option.none "cpu" Option.none 3 ∅)]), tx2) ∧
      lookupLocal tx2 "x" =
        some (.tensor Option.none "fake" Option.none
          txL.output.graph.nextProxy
          (optionsGuards [Var.tensor Option.none "cpu" Option.none 8 ∅]
            [("out", Var.tensor Option.none "cpu" Option.none 3 ∅)]))) ∧
    (∃ tx2,
      classifyCall envW (.other "torch" "sort")
          [.tensor Option.none "cpu" Option.none 8 ∅]
          [("out", .tupleVr [.tensor Option.none "cpu" Option.none 3 ∅,
            .tensor Option.none "cpu" Option.none 4 ∅] ∅)] txM =
        .ok (.tupleVr
            [.tensor Option.none "fake" Option.none
               (txM.output.graph.nextProxy + 1)
               (optionsGuards [Var.tensor Option.none "cpu" Option.none 8 ∅]
                 [("out", Var.tupleVr
                   [Var.tensor Option.none "cpu" Option.none 3 ∅,
                    Var.tensor Option.none "cpu" Option.none 4 ∅] ∅)]),
             .tensor Option.none "fake" Option.none
               (txM.output.graph.nextProxy + 2)
               (optionsGuards [Var.tensor Option.none "cpu" Option.none 8 ∅]
                 [("out", Var.tupleVr
                   [Var.tensor Option.none "cpu" Option.none 3 ∅,
                    Var.tensor Option.none "cpu" Option.none 4 ∅] ∅)])]
            (optionsGuards [Var.tensor Option.none "cpu" Option.none 8 ∅]
              [("out", Var.tupleVr
                [Var.tensor Option.none "cpu" Option.none 3 ∅,
                 Var.tensor Option.none "cpu" Option.none 4 ∅] ∅)]), tx2) ∧
      lookupLocal tx2 "u" =
        some (.tensor Option.none "fake" Option.none
          (txM.output.graph.nextProxy + 1)
          (optionsGuards [Var.tensor Option.none "cpu" Option.none 8 ∅]
            [("out", Var.tupleVr
              [Var.tensor Option.none "cpu" Option.none 3 ∅,
               Var.tensor Option.none "cpu" Option.none 4 ∅] ∅)])) ∧
      lookupLocal tx2 "v" =
        some (.tensor Option.none "fake" Option.none
          (txM.output.graph.nextProxy + 2)
          (optionsGuards [Var.tensor Option.none "cpu" Option.none 8 ∅]
            [("out", Var.tupleVr
              [Var.tensor Option.none "cpu" Option.none 3 ∅,
               Var.tensor Option.none "cpu" Option.none 4 ∅] ∅)]))) :=
  ⟨claim_C4_amended.1 txL Option.none Option.none "cpu" "cpu" Option.none
      Option.none 8 3 ∅ ∅ "x" rfl,
   claim_C4_amended.2.1 txM Option.none Option.none Option.none "cpu" "cpu"
      "cpu" Option.none Option.none Option.none 8 3 4 ∅ ∅ ∅ ∅ "u" "v"
      rfl rfl (by decide)⟩

theorem except_bind_ok {α β : Type} (a : α) (f : α → Except Err β) :
    Bind.bind (Except.ok a) f = f a := rfl

theorem except_bind_eq {α β : Type} (m : Except Err α)
    (k : α → Except Err β) :
    Bind.bind m k =
      (match m with
       | .error e => .error e
       | .ok a => k a) := by
  cases m <;> rfl

theorem condCall_split (env : Env) (tx : TxState) (pdt : Option DtypeV)
    (pdev : String) (psz : Option (List Nat)) (pp tTag fTag : Nat)
    (pg tg fg lg : GuardSet) (items : List Var) :
    condCall env "cond"
        [.tensor pdt pdev psz pp pg, .userFn tTag tg, .userFn fTag fg,
         .listVr items lg] [] tx =
      Bind.bind
        (speculateBranch env tx.output.graph tx.copyGraphstate tTag fTag
          items true tx)
        (fun x =>
          Bind.bind
            (speculateBranch env tx.output.graph tx.copyGraphstate tTag fTag
              items false x.2.2.2.2.2)
            (fun y => condJoin "cond" pp items x y)) := rfl

theorem condJoin_ne (opName : String) (pp : Nat) (items : List Var)
    (x y : Var × Graph × GuardSet × Option NnTable × TxGraphState × TxState)
    (hne : x.2.2.2.2.1 ≠ y.2.2.2.2.1) :
    condJoin opName pp items x y =
      .error (.unsupported (diffStates x.2.2.2.2.1 y.2.2.2.2.1)) := by
  unfold condJoin
  rw [if_pos hne]

theorem condJoin_ok (opName : String) (pp : Nat)
    (items : List Var) (ps : List PArg)
    (x y : Var × Graph × GuardSet × Option NnTable × TxGraphState × TxState)
    (tbl : NnTable)
    (hcmp : x.2.2.2.2.1 = y.2.2.2.2.1)
    (htbl : y.2.2.2.2.2.output.nnModules = some tbl)
    (hps : Var.asProxyList items = some ps) :
    ∃ v tx', condJoin opName pp items x y = .ok (v, tx') ∧
      x.2.2.1 ∪ y.2.2.1 ⊆ tx'.output.guards := by
  unfold condJoin
  rw [if_neg (fun hne => hne hcmp)]
  simp only []
  obtain ⟨i, hi⟩ := addSubgraph_ok "true"
    ({ y.2.2.2.2.2 with
        output :=
          { y.2.2.2.2.2.output with
              guards := y.2.2.2.2.2.output.guards ∪ y.2.2.1 ∪ x.2.2.1 } })
    tbl htbl
  rw [hi]
  simp only [except_bind_ok]
  obtain ⟨j, hj⟩ := addSubgraph_ok "false"
    ({ ({ y.2.2.2.2.2 with
        output :=
          { y.2.2.2.2.2.output with
              guards := y.2.2.2.2.2.output.guards ∪ y.2.2.1 ∪ x.2.2.1 } }
        : TxState) with
        output :=
          { ({ y.2.2.2.2.2 with
              output :=
                { y.2.2.2.2.2.output with
                    guards :=
                      y.2.2.2.2.2.output.guards ∪ y.2.2.1 ∪ x.2.2.1 } }
              : TxState).output with
              nnModules := some (tbl ++ [(("true", i), tbl.length)]) } })
    (tbl ++ [(("true", i), tbl.length)]) rfl
  rw [hj]
  simp only [except_bind_ok]
  rw [hps]
  simp only [except_bind_ok]
  refine ⟨_, _, rfl, ?_⟩
  show x.2.2.1 ∪ y.2.2.1 ⊆
    y.2.2.2.2.2.output.guards ∪ y.2.2.1 ∪ x.2.2.1
  exact Finset.union_subset Finset.subset_union_right
    (Finset.subset_union_right.trans Finset.subset_union_left)

theorem foldlM_ok_proxies (f : TxState → Var → Except Err TxState)
    (hf : ∀ acc a acc2, f acc a = .ok acc2 → ∃ q, Var.asProxyQ a = some q) :
    ∀ (items : List Var) (acc r2 : TxState),
      List.foldlM f acc items = Except.ok r2 →
      ∃ ps, Var.asProxyList items = some ps := by
  intro items
  induction items with
  | nil => exact fun acc r2 _ => ⟨[], rfl⟩
  | cons a rest ih =>
      intro acc r2 h
      rcases hfa : f acc a with e | acc2
      · rw [List.foldlM_cons, hfa] at h
        exact absurd h (by simp [except_bind_eq])
      · rw [List.foldlM_cons, hfa, except_bind_ok] at h
        obtain ⟨ps, hps⟩ := ih acc2 r2 h
        obtain ⟨q, hq⟩ := hf acc a acc2 hfa
        refine ⟨q :: ps, ?_⟩
        show (match Var.asProxyQ a, Var.asProxyList rest with
          | some q2, some ps2 => some (q2 :: ps2)
          | _, _ => Option.none) = some (q :: ps)
        rw [hq, hps]

theorem speculate_asProxyList {env : Env} {gc : Graph} {cp : TxGraphState}
    {tTag fTag : Nat} {items : List Var} {b : Bool} {tx : TxState}
    {r : Var × Graph × GuardSet × Option NnTable × TxGraphState × TxState}
    (h : speculateBranch env gc cp tTag fTag items b tx = .ok r) :
    ∃ ps, Var.asProxyList items = some ps := by
  unfold speculateBranch at h
  rw [except_bind_eq] at h
  split at h
  · exact absurd h (by simp)
  · rename_i a heq
    refine foldlM_ok_proxies _ ?_ items _ _ heq
    intro acc av acc2 hfa
    cases av <;> first
      | exact ⟨_, rfl⟩
      | simp at hfa

/-- Claim C1: for a conditional call whose two branch speculations succeed,
if the two comparable projections differ the outcome is Unsupported
carrying the structural diff of the two checkpoints; and if the comparable
projections agree (while the guard sets may differ) the call succeeds and
the guard accumulator of the resulting trace state contains the union of
the true branch's and the false branch's guard sets. -/
theorem claim_C1 :
    ∀ (env : Env) (tx : TxState) (pdt : Option DtypeV) (pdev : String)
      (psz : Option (List Nat)) (pp tTag fTag : Nat)
      (pg tg fg lg : GuardSet) (items : List Var)
      (tr fr : Var) (trG frG : Graph) (trGu frGu : GuardSet)
      (trNn frNn : Option NnTable) (trCmp frCmp : TxGraphState)
      (tx1 tx2 : TxState),
      speculateBranch env tx.output.graph tx.copyGraphstate tTag fTag items
          true tx = .ok (tr, trG, trGu, trNn, trCmp, tx1) →
      speculateBranch env tx.output.graph tx.copyGraphstate tTag fTag items
          false tx1 = .ok (fr, frG, frGu, frNn, frCmp, tx2) →
      (trCmp ≠ frCmp →
        condCall env "cond"
            [.tensor pdt pdev psz pp pg, .userFn tTag tg, .userFn fTag fg,
             .listVr items lg] [] tx =
          .error (.unsupported (diffStates trCmp frCmp))) ∧
      (∀ tbl : NnTable, trCmp = frCmp → tx2.output.nnModules = some tbl →
        ∃ v tx', condCall env "cond"
            [.tensor pdt pdev psz pp pg, .userFn tTag tg, .userFn fTag fg,
             .listVr items lg] [] tx = .ok (v, tx') ∧
          trGu ∪ frGu ⊆ tx'.output.guards) := by
  intro env tx pdt pdev psz pp tTag fTag pg tg fg lg items tr fr trG frG
    trGu frGu trNn frNn trCmp frCmp tx1 tx2 h1 h2
  constructor
  · intro hne
    rw [condCall_split, h1]
    simp only [except_bind_ok]
    rw [h2]
    simp only [except_bind_ok]
    exact condJoin_ne "cond" pp items
      (tr, trG, trGu, trNn, trCmp, tx1) (fr, frG, frGu, frNn, frCmp, tx2) hne
  · intro tbl hcmp htbl
    obtain ⟨ps, hps⟩ := speculate_asProxyList h1
    rw [condCall_split, h1]
    simp only [except_bind_ok]
    rw [h2]
    simp only [except_bind_ok]
    exact condJoin_ok "cond" pp items ps
      (tr, trG, trGu, trNn, trCmp, tx1) (fr, frG, frGu, frNn, frCmp, tx2)
      tbl hcmp htbl hps

/-- Claim C1, witness: at the concrete environment, branch bodies 3 and 2
leave observably different side-effect records, so the conditional is
Unsupported with the diff naming the side-effect component; branch bodies 1
and 2 differ only in their guard (11 versus 12), so the conditional
succeeds and both guards end up in the guard accumulator. -/
theorem claim_C1_witness :
    condCall envW "cond"
        [.tensor Option.none "cpu" Option.none 1 ∅, .userFn 3 ∅,
         .userFn 2 ∅,
         .listVr [.tensor Option.none "cpu" Option.none 3 ∅] ∅] [] txW =
      .error (.unsupported "side_effects") ∧
    (∃ v tx', condCall envW "cond"
        [.tensor Option.none "cpu" Option.none 1 ∅, .userFn 1 ∅,
         .userFn 2 ∅,
         .listVr [.tensor Option.none "cpu" Option.none 3 ∅] ∅] [] txW =
      .ok (v, tx') ∧
      ({11} : GuardSet) ∪ {12} ⊆ tx'.output.guards) := by
  constructor
  · exact (claim_C1 envW txW Option.none "cpu" Option.none 1 3 2 ∅ ∅ ∅ ∅
      [.tensor Option.none "cpu" Option.none 3 ∅] _ _ _ _ _ _ _ _ _ _ _ _
      rfl rfl).1 (by decide)
  · obtain ⟨v, tx', he, hsub⟩ := (claim_C1 envW txW Option.none "cpu"
      Option.none 1 1 2 ∅ ∅ ∅ ∅
      [.tensor Option.none "cpu" Option.none 3 ∅] _ _ _ _ _ _ _ _ _ _ _ _
      rfl rfl).2 [] (by decide) (by decide)
    exact ⟨v, tx', he, hsub⟩
